import Mathlib

/-!
Verification of the risor bytecode compiler and VM core.

Shallow embedding of the bytecode compiler (`src/unnamed/part_002`,
package `compiler`) and the stack virtual machine
(`src/internal/vm/vm.go`, package `vm`) of the repository, together
with proofs settling the frozen claims about them.

Conventions:
* Go machine integers are modelled as `Int`/`Nat` with explicit
  wrap-around (`% 2^64`, `% 2^16`, `% 2^8`) where the Go code performs
  conversions or can overflow.
* Go `panic` (failed type assertion, index out of range, integer divide
  by zero, nil dereference) is modelled by a distinguished `goPanic`
  outcome, kept separate from the `error` values the Go functions
  return (`errR`): a Go panic propagates out of `VM.Run` and, being
  unrecovered anywhere in the repository, terminates the host process,
  while a returned error is an ordinary value.
* The packages `op`, `symbol`, `object` and the `Frame`/`Stack` types
  are referenced by the code under `src/` but their sources are not
  part of `src/`; their definitions are modelled from the spec and are
  marked `Modelled from the spec:` in their doc comments.
-/

namespace Risor

/-! ## Opcodes

Modelled from the spec: the `op` package is not under `src/`.  The
spec (§4.3, §6) fixes the set of opcodes and the operand widths but
not the numeric codes; the numbering below follows the order of the
cases in `VM.Run`'s switch and is a model choice.  The code under
`src/` depends only on the codes being distinct; where an execution
mis-decodes operand words as opcodes (the C4 encoding mismatch), the
concrete outcome recorded in a theorem depends on this numbering, but
the departure from the claimed behavior does not. -/

def opNop : Nat := 0
def opLoadAttr : Nat := 1
def opLoadConst : Nat := 2
def opLoadFast : Nat := 3
def opLoadGlobal : Nat := 4
def opLoadFree : Nat := 5
def opStoreFast : Nat := 6
def opStoreGlobal : Nat := 7
def opStoreFree : Nat := 8
def opLoadClosure : Nat := 9
def opMakeCell : Nat := 10
def opNil : Nat := 11
def opTrue : Nat := 12
def opFalse : Nat := 13
def opCompareOp : Nat := 14
def opBinaryOp : Nat := 15
def opCall : Nat := 16
def opReturnValue : Nat := 17
def opPopJumpForwardIfTrue : Nat := 18
def opPopJumpForwardIfFalse : Nat := 19
def opPopJumpBackwardIfTrue : Nat := 20
def opPopJumpBackwardIfFalse : Nat := 21
def opJumpForward : Nat := 22
def opJumpBackward : Nat := 23
def opPrint : Nat := 24
def opBuildList : Nat := 25
def opBuildMap : Nat := 26
def opBuildSet : Nat := 27
def opBinarySubscr : Nat := 28
def opUnaryNegative : Nat := 29
def opUnaryNot : Nat := 30
def opContainsOp : Nat := 31
def opHalt : Nat := 32
def opLoadBuiltin : Nat := 33

/-- Modelled from the spec: `op.BinaryOpType` codes (the `op` package is
not under `src/`; the set of kinds is fixed by `runBinaryOp` and the
spec §4.3, the numbering is a model choice). -/
def opAdd : Nat := 0
def opSubtract : Nat := 1
def opMultiply : Nat := 2
def opDivide : Nat := 3
def opModulo : Nat := 4
def opAnd : Nat := 5
def opOr : Nat := 6
def opXor : Nat := 7
def opPower : Nat := 8
def opLShift : Nat := 9
def opRShift : Nat := 10

/-- Modelled from the spec: `op.CompareOpType` codes. -/
def opEqual : Nat := 0
def opNotEqual : Nat := 1
def opLessThan : Nat := 2
def opLessThanOrEqual : Nat := 3
def opGreaterThan : Nat := 4
def opGreaterThanOrEqual : Nat := 5

/-- Modelled from the spec (§6, canonical operand table): widths, in
code words, of each operand of an opcode.  1-word operands:
`Call.argc`, `StoreFast.idx`, the `kind` of unary/compare/binary ops,
`ContainsOp.invert`, `ReturnValue._`, `MakeCell.frames_back`.  2-word
(little-endian) operands: every load/store of constants, globals,
free variables, names and attributes, all jump deltas,
`BuildList/Map/Set.count`, both operands of `LoadClosure`, and
`MakeCell.sym_idx`. -/
def operandWidthsSpec (opcode : Nat) : List Nat :=
  if opcode = opCall then [1]
  else if opcode = opStoreFast then [1]
  else if opcode = opCompareOp then [1]
  else if opcode = opBinaryOp then [1]
  else if opcode = opContainsOp then [1]
  else if opcode = opReturnValue then [1]
  else if opcode = opMakeCell then [2, 1]
  else if opcode = opLoadClosure then [2, 2]
  else if opcode = opLoadAttr then [2]
  else if opcode = opLoadConst then [2]
  else if opcode = opLoadFast then [2]
  else if opcode = opLoadGlobal then [2]
  else if opcode = opLoadFree then [2]
  else if opcode = opLoadBuiltin then [2]
  else if opcode = opStoreGlobal then [2]
  else if opcode = opStoreFree then [2]
  else if opcode = opPopJumpForwardIfTrue then [2]
  else if opcode = opPopJumpForwardIfFalse then [2]
  else if opcode = opPopJumpBackwardIfTrue then [2]
  else if opcode = opPopJumpBackwardIfFalse then [2]
  else if opcode = opJumpForward then [2]
  else if opcode = opJumpBackward then [2]
  else if opcode = opBuildList then [2]
  else if opcode = opBuildMap then [2]
  else if opcode = opBuildSet then [2]
  else []

/-- `MakeInstruction` (src/unnamed/part_002, lines 695-708): allocates
`1 + OperandCount` code words and writes the opcode followed by ONE
word per operand (`instruction[offset] = op.Code(o)`); each operand is
a `uint16`, so the call sites' `int`-to-`uint16` conversions are the
`% 2^16`.  The source panics when the operand count disagrees with the
table; every call site in the compiler passes exactly one value per
operand, matching this definition. -/
def MakeInstruction (opcode : Nat) (operands : List Nat) : List Nat :=
  opcode :: operands.map (fun o => o % 65536)

/-! ## Objects

Modelled from the spec: the `object` package is not under `src/`.  The
spec (§3) fixes the value variants and their operations.  `Float` is
omitted (floating point; no claim depends on it).  `goZero` models
Go's zero value of the `object.Object` interface (a nil interface):
popping an empty operand stack yields it, calling a method on it
panics, and a type switch on it falls through to the default case.
`CompiledFunction` carries the data the VM reads from it
(`Scope().Instructions/Constants/Names/IsNamed`, the symbol count used
to size frame locals, and `FreeVars()`); per the spec §3 a Closure is
a CompiledFunction with its `free_vars` populated, which matches the
VM's `op.Call` case accepting the result of `NewClosure` as a
`*object.CompiledFunction`.  Cells are addresses into the VM's slot
store (Go: a `*object.Cell` holds a pointer to a locals slot). -/
structure FnMeta where
  name : String
  params : List String
  isNamed : Bool
  symbolCount : Nat
  instructions : List Nat
  names : List String
  freeVars : List Nat
deriving Repr, DecidableEq

inductive Obj where
  | nil : Obj
  | goZero : Obj
  | boolean : Bool → Obj
  | int : Int → Obj
  | str : String → Obj
  | list : List Obj → Obj
  | mapO : List (String × Obj) → Obj
  | setO : List Obj → Obj
  | builtin : String → Obj
  | compiledFunction : FnMeta → List Obj → Obj
  | cell : Nat → Obj
deriving Repr

mutual

/-- Modelled from the spec: structural equality of values
(`object.Object.Equals`; §3 "structural equality"). -/
def objEquals : Obj → Obj → Bool
  | .nil, .nil => true
  | .goZero, .goZero => true
  | .boolean a, .boolean b => a == b
  | .int a, .int b => a == b
  | .str a, .str b => a == b
  | .list a, .list b => objEqualsL a b
  | .setO a, .setO b => objEqualsL a b
  | .mapO a, .mapO b => objEqualsM a b
  | .builtin a, .builtin b => a == b
  | .compiledFunction m1 c1, .compiledFunction m2 c2 => m1 == m2 && objEqualsL c1 c2
  | .cell a, .cell b => a == b
  | _, _ => false

/-- List part of `objEquals`. -/
def objEqualsL : List Obj → List Obj → Bool
  | [], [] => true
  | a :: as1, b :: bs => objEquals a b && objEqualsL as1 bs
  | _, _ => false

/-- Map part of `objEquals`. -/
def objEqualsM : List (String × Obj) → List (String × Obj) → Bool
  | [], [] => true
  | (k1, v1) :: as1, (k2, v2) :: bs => k1 == k2 && objEquals v1 v2 && objEqualsM as1 bs
  | _, _ => false

end

/-- Modelled from the spec: truthiness of a value
(`object.Object.IsTruthy`; §3 "truthiness").  `none` models the Go
panic of calling a method on the nil interface. -/
def isTruthy : Obj → Option Bool
  | .goZero => none
  | .nil => some false
  | .boolean b => some b
  | .int i => some (i != 0)
  | .str s => some (s.length != 0)
  | .list xs => some (xs.length != 0)
  | .mapO xs => some (xs.length != 0)
  | .setO xs => some (xs.length != 0)
  | _ => some true

/-! ## Go 64-bit integer arithmetic -/

/-- Two's-complement wrap of an integer into the signed 64-bit range,
modelling Go `int64` overflow. -/
def wrap64 (z : Int) : Int :=
  (z + 2 ^ 63) % 2 ^ 64 - 2 ^ 63

/-- Two's-complement 64-bit representation, for the bitwise operators. -/
def toU64 (z : Int) : Nat :=
  (z % 2 ^ 64).toNat

/-- Result of `VM.runBinaryOp` / `VM.runCompareOp`: either the
`object.Object` the Go function returns, or a Go runtime panic
(failed `.(*object.Int)` type assertion, integer divide by zero,
negative shift amount, nil-interface method call, or the explicit
`panic` in `runCompareOp`'s default case). -/
inductive BinRes where
  | okV : Obj → BinRes
  | goPanic : String → BinRes
deriving Repr

/-- Helper for the `a.(*object.Int).Value()` type assertions: both
operands must be Ints, otherwise Go panics. -/
def intOp2 (a b : Obj) (f : Int → Int → BinRes) : BinRes :=
  match a, b with
  | .int x, .int y => f x y
  | _, _ => .goPanic "interface conversion"

/-- Modelled from the spec with a documented caveat: Go computes
`Power` as `int64(math.Pow(float64(a), float64(b)))`; this model is
the exact integer power for non-negative exponents (it agrees with the
float computation whenever the result magnitude is below `2^53`) and
truncation-toward-zero of the reciprocal for negative exponents.  No
claim depends on `Power`. -/
def goPowViaFloat (x y : Int) : Int :=
  if y < 0 then
    if x = 1 then 1
    else if x = -1 then (if y % 2 = 0 then 1 else -1)
    else 0
  else x ^ y.toNat

/-- `VM.runBinaryOp` (src/internal/vm/vm.go, lines 355-381).  Each
arithmetic case asserts both operands to `*object.Int` (a Go panic on
any other type), divide and modulo panic on a zero divisor, shifts
panic on a negative count, and an unknown kind falls off the switch
and returns Go `nil` (the zero Object). -/
def runBinaryOp (opType : Nat) (a b : Obj) : BinRes :=
  if opType = opAdd then
    intOp2 a b (fun x y => .okV (.int (wrap64 (x + y))))
  else if opType = opSubtract then
    intOp2 a b (fun x y => .okV (.int (wrap64 (x - y))))
  else if opType = opMultiply then
    intOp2 a b (fun x y => .okV (.int (wrap64 (x * y))))
  else if opType = opDivide then
    intOp2 a b (fun x y =>
      if y = 0 then .goPanic "integer divide by zero"
      else .okV (.int (wrap64 (Int.tdiv x y))))
  else if opType = opModulo then
    intOp2 a b (fun x y =>
      if y = 0 then .goPanic "integer divide by zero"
      else .okV (.int (Int.tmod x y)))
  else if opType = opAnd then
    intOp2 a b (fun x y => .okV (.int (wrap64 (Nat.land (toU64 x) (toU64 y)))))
  else if opType = opOr then
    intOp2 a b (fun x y => .okV (.int (wrap64 (Nat.lor (toU64 x) (toU64 y)))))
  else if opType = opXor then
    intOp2 a b (fun x y => .okV (.int (wrap64 (Nat.xor (toU64 x) (toU64 y)))))
  else if opType = opPower then
    intOp2 a b (fun x y => .okV (.int (goPowViaFloat x y)))
  else if opType = opLShift then
    intOp2 a b (fun x y =>
      if y < 0 then .goPanic "negative shift amount"
      else .okV (.int (wrap64 (x * 2 ^ y.toNat))))
  else if opType = opRShift then
    intOp2 a b (fun x y =>
      if y < 0 then .goPanic "negative shift amount"
      else .okV (.int (Int.fdiv x (2 ^ y.toNat))))
  else .okV .goZero

/-- The `a.Equals(b)` call in `runCompareOp`: a method call, so a nil
receiver (popped from an empty stack) panics. -/
def objEqualsRes (a b : Obj) : BinRes :=
  match a with
  | .goZero => .goPanic "nil pointer dereference"
  | _ => .okV (.boolean (objEquals a b))

/-- Helper for the ordered comparisons, which assert both operands to
`*object.Int`. -/
def intCmp (a b : Obj) (f : Int → Int → Bool) : BinRes :=
  match a, b with
  | .int x, .int y => .okV (.boolean (f x y))
  | _, _ => .goPanic "interface conversion"

/-- `VM.runCompareOp` (src/internal/vm/vm.go, lines 332-353).
Equality goes through `Equals`; the four ordered comparisons assert
both operands to `*object.Int` (Go panic otherwise); an unknown kind
hits the explicit `panic("unknown compare op")`. -/
def runCompareOp (opType : Nat) (a b : Obj) : BinRes :=
  if opType = opEqual then objEqualsRes a b
  else if opType = opNotEqual then
    match objEqualsRes a b with
    | .okV v => .okV (.boolean (!objEquals v (.boolean true)))
    | r => r
  else if opType = opLessThan then intCmp a b (fun x y => decide (x < y))
  else if opType = opLessThanOrEqual then intCmp a b (fun x y => decide (x ≤ y))
  else if opType = opGreaterThan then intCmp a b (fun x y => decide (x > y))
  else if opType = opGreaterThanOrEqual then intCmp a b (fun x y => decide (x ≥ y))
  else .goPanic "unknown compare op"

/-! ## VM state

`VM` (src/internal/vm/vm.go, lines 42-54): instruction pointer, operand
stack, fixed frame array with `framesIndex`, globals, current scope.
The frame array of capacity `MaxFrameDepth` with its index is modelled
as the list of live frames (head = the frame at `framesIndex`, the
current one); slots above `framesIndex` are never read before being
re-initialized, so they carry no information.  Frame locals and the
cells pointing into them are modelled by a flat slot `store`: a frame
owns the region `[localsBase, localsBase + localsLen)` (Go allocates a
fresh locals slice per call, so regions are never reused), and an
`Obj.cell a` is a `*object.Cell` holding the address `a` of one slot
(`object.NewCell(&locals[i])`). -/

def maxFrameDepth : Nat := 1024

def maxArgs : Nat := 255

structure ScopeData where
  instructions : List Nat
  constants : List Obj
  names : List String
deriving Repr

/-- Modelled from the spec: the `Frame` type is referenced by vm.go but
not under `src/`; per spec §3 it is `{ fn, locals, return_addr, scope }`
with `locals` sized to the function's symbol count. -/
structure Frame where
  fn : Option FnMeta
  localsBase : Nat
  localsLen : Nat
  returnAddr : Int
  scope : ScopeData
deriving Repr

structure VMSt where
  ip : Int
  stack : List Obj
  frames : List Frame
  globals : List Obj
  store : List Obj
  currentScope : ScopeData
deriving Repr

def VMSt.framesIndex (s : VMSt) : Nat := s.frames.length - 1

/-- `vm.Pop` via the generic `Stack.Pop`, which returns the zero value
(ignored `ok` flag) on an empty stack: the nil `object.Object`
interface, `Obj.goZero`. -/
def VMSt.pop (s : VMSt) : Obj × VMSt :=
  match s.stack with
  | [] => (Obj.goZero, s)
  | x :: rest => (x, { s with stack := rest })

def VMSt.push (s : VMSt) (o : Obj) : VMSt :=
  { s with stack := o :: s.stack }

/-- Go slice read at a possibly negative index (Go panics on any
out-of-range index, including negative ones reached via jump
arithmetic). -/
def getWordI (l : List Nat) (i : Int) : Option Nat :=
  if i < 0 then none else l.get? i.toNat

/-- `VM.fetch` (vm.go, lines 404-408): reads ONE code word and converts
it to `uint8` (`% 2^8`). -/
def VMSt.fetch (s : VMSt) : Option (Nat × VMSt) :=
  match getWordI s.currentScope.instructions s.ip with
  | none => none
  | some w => some (w % 256, { s with ip := s.ip + 1 })

/-- The value computed by `VM.fetch2` from the two code words it reads:
`uint16(instr[ip]) | uint16(instr[ip+1])<<8` (the shift wraps inside
`uint16`). -/
def fetch2Val (w1 w2 : Nat) : Nat :=
  Nat.lor (w1 % 65536) ((w2 % 65536) * 256 % 65536)

/-- `VM.fetch2` (vm.go, lines 410-415): reads TWO code words, combines
them little-endian, and advances `ip` by 2. -/
def VMSt.fetch2 (s : VMSt) : Option (Nat × VMSt) :=
  match getWordI s.currentScope.instructions s.ip,
        getWordI s.currentScope.instructions (s.ip + 1) with
  | some w1, some w2 => some (fetch2Val w1 w2, { s with ip := s.ip + 2 })
  | _, _ => none

/-- Outcome of one dispatch step.  `errR` is a Go `return err` out of
`VM.Run` (the VM value and its state survive in the caller); `goPanic`
is an unrecovered Go runtime panic. -/
inductive StepRes where
  | next : VMSt → StepRes
  | halted : VMSt → StepRes
  | errR : String → VMSt → StepRes
  | goPanic : String → StepRes
deriving Repr

/-- The argument-popping loop of `op.Call`
(`tmpArgs[argc-1-i] = vm.Pop()`): returns `tmpArgs[0..argc)`;  pops of
an empty stack yield the zero Object. -/
def popArgs (n : Nat) (s : VMSt) : List Obj × VMSt :=
  (List.replicate (n - s.stack.length) Obj.goZero ++ (s.stack.take n).reverse,
   { s with stack := s.stack.drop n })

/-- Modelled from the spec: builtin function bodies are external
collaborators (spec §1); no claim depends on a builtin's result. -/
def builtinCall (_name : String) (_args : List Obj) : Obj :=
  Obj.nil

/-- The `op.Call` case of `VM.Run` (vm.go, lines 174-211), after the
`argc` operand has been fetched: pop `argc` arguments, pop the callee;
builtins are invoked in place; a `CompiledFunction` first checks
`framesIndex+1 >= MaxFrameDepth` (frame overflow error, nothing else
modified), appends the callee itself to the arguments when its scope
`IsNamed` (writing `tmpArgs[argc]`, an index-out-of-range panic when
`argc` is already `MaxArgs`), initializes the next frame with the
arguments as locals (padded to the function's symbol count, per the
spec's Frame contract) and enters it; anything else is a "not a
function" error. -/
def execCall (argc : Nat) (s : VMSt) : StepRes :=
  let p := popArgs argc s
  let args := p.1
  let s1 := p.2
  let q := s1.pop
  let callee := q.1
  let s2 := q.2
  match callee with
  | .builtin name => .next (s2.push (builtinCall name args))
  | .compiledFunction meta consts =>
    if s2.framesIndex + 1 ≥ maxFrameDepth then .errR "frame overflow" s2
    else
      let enter := fun (args2 : List Obj) =>
        let locals := args2 ++ List.replicate (meta.symbolCount - args2.length) Obj.goZero
        let scope : ScopeData := ⟨meta.instructions, consts, meta.names⟩
        let frame : Frame := ⟨some meta, s2.store.length, locals.length, s2.ip, scope⟩
        StepRes.next { s2 with frames := frame :: s2.frames,
                               store := s2.store ++ locals, ip := 0, currentScope := scope }
      if meta.isNamed then
        if argc = maxArgs then .goPanic "index out of range"
        else enter (args ++ [.compiledFunction meta consts])
      else enter args
  | _ => .errR "not a function" s2

/-- The `op.ReturnValue` case of `VM.Run` (vm.go, lines 212-223): frame
underflow error when `framesIndex < 1` (nothing modified), otherwise
pop the frame, restore `ip` from the leaving frame's return address and
the current scope from the new top frame.  Note the case fetches no
operand even though the compiler emits one. -/
def execReturnValue (s : VMSt) : StepRes :=
  if s.framesIndex < 1 then .errR "frame underflow" s
  else
    match s.frames with
    | leaving :: cur :: rest =>
      .next { s with frames := cur :: rest, ip := leaving.returnAddr,
                     currentScope := cur.scope }
    | _ => .goPanic "unreachable"

/-- The `op.MakeCell` case of `VM.Run` (vm.go, lines 148-157), after
its operands are fetched: walk `framesBack` frames down from the
current one (error if below the base frame), and push a cell aliasing
that frame's locals slot `symbolIndex` (`object.NewCell(&locals[i])`;
Go panics when the slot index is out of range). -/
def execMakeCell (symbolIndex framesBack : Nat) (s : VMSt) : StepRes :=
  if framesBack > s.framesIndex then .errR "no frame at depth" s
  else
    match s.frames.get? framesBack with
    | none => .goPanic "index out of range"
    | some frame =>
      if symbolIndex < frame.localsLen then
        .next (s.push (.cell (frame.localsBase + symbolIndex)))
      else .goPanic "index out of range"

/-- The cell-popping loop of `op.LoadClosure`: pops `n` values, each of
which must be a `*object.Cell` (else the "expected cell" error is
returned, with the pops so far already performed); `free[0]` is the
first value popped. -/
def popCells (n : Nat) (s : VMSt) : Except (String × VMSt) (List Nat × VMSt) :=
  match n with
  | 0 => .ok ([], s)
  | n + 1 =>
    let p := s.pop
    match p.1 with
    | .cell a =>
      match popCells n p.2 with
      | .ok (as1, s2) => .ok (a :: as1, s2)
      | .error e => .error e
    | _ => .error ("expected cell", p.2)

/-- The `op.LoadClosure` case of `VM.Run` (vm.go, lines 132-147), after
its operands are fetched: pop `freeCount` cells, read the
`CompiledFunction` constant (Go panics on an out-of-range index or a
non-function constant, via the `.(*object.CompiledFunction)`
assertion), and push it wrapped with the captured cells
(`object.NewClosure`; per spec §3 the closure is the function value
with `free_vars` populated). -/
def execLoadClosure (constIndex freeCount : Nat) (s : VMSt) : StepRes :=
  match popCells freeCount s with
  | .error e => .errR e.1 e.2
  | .ok (free, s1) =>
    match s1.currentScope.constants.get? constIndex with
    | none => .goPanic "index out of range"
    | some (.compiledFunction meta consts) =>
      .next (s1.push (.compiledFunction { meta with freeVars := free } consts))
    | some _ => .goPanic "interface conversion"

/-- Modelled from the spec: attribute lookup by name lives in the
`object` package (not under `src/`); no claim depends on an attribute
table, so the model exposes none and every lookup on a non-nil value
misses. -/
def getAttr (_o : Obj) (_name : String) : Option Obj :=
  none

/-- Modelled from the spec: `object.Container.GetItem` (spec §3
"container indexing where applicable"): lists index by in-range Int,
maps by string key.  No claim depends on it. -/
def getItem (container index : Obj) : Except String Obj :=
  match container, index with
  | .list xs, .int i =>
    if h : 0 ≤ i ∧ i.toNat < xs.length then .ok (xs.get ⟨i.toNat, h.2⟩)
    else .error "index out of bounds"
  | .mapO ps, .str k =>
    match ps.find? (fun p => p.1 == k) with
    | some p => .ok p.2
    | none => .error "key not found"
  | _, _ => .error "not a subscriptable container"

/-- Modelled from the spec: `object.Container.Contains` membership via
value equality (`none` when the value is not a container). -/
def objContains (container elem : Obj) : Option Obj :=
  match container with
  | .list xs => some (.boolean (xs.any (fun x => objEquals x elem)))
  | .setO xs => some (.boolean (xs.any (fun x => objEquals x elem)))
  | .mapO ps =>
    some (.boolean (match elem with
      | .str k => ps.any (fun p => p.1 == k)
      | _ => false))
  | _ => none

/-- `object.Not` on the Bool singletons. -/
def objNot : Obj → Obj
  | .boolean b => .boolean !b
  | _ => .nil

/-- The key/value-popping loop of `op.BuildMap`: pops `count` (value,
key) pairs; each key is asserted to `*object.String` (Go panic
otherwise).  The Go map insert overwrites duplicate keys; the model
keeps the association list in pop order (no claim builds a map with
duplicate keys). -/
def popMapPairs (n : Nat) (s : VMSt) : Option (List (String × Obj) × VMSt) :=
  match n with
  | 0 => some ([], s)
  | n + 1 =>
    let pv := s.pop
    let pk := pv.2.pop
    match pk.1 with
    | .str k =>
      match popMapPairs n pk.2 with
      | some (ps, s2) => some ((k, pv.1) :: ps, s2)
      | none => none
    | _ => none

/-- The item-popping loop of `op.BuildSet` (`items[i] = vm.Pop()`, in
pop order). -/
def popSetItems (n : Nat) (s : VMSt) : List Obj × VMSt :=
  (s.stack.take n ++ List.replicate (n - s.stack.length) Obj.goZero,
   { s with stack := s.stack.drop n })

/-- One iteration of the dispatch loop of `VM.Run` (vm.go, lines
99-327): read the opcode word at `ip` (Go panics when `ip` is negative
or past the end while the loop guard `ip < len` held), advance `ip`,
and execute the case for the opcode.  Opcodes without a case — among
them `LoadBuiltin` and `Print`-less codes the compiler can emit — fall
to the `default` branch and return an "unknown opcode" error. -/
def step (s0 : VMSt) : StepRes :=
  match getWordI s0.currentScope.instructions s0.ip with
  | none => .goPanic "index out of range"
  | some opcode =>
  let s := { s0 with ip := s0.ip + 1 }
  if opcode = opNop then .next s
  else if opcode = opLoadAttr then
    let p := s.pop
    match p.2.fetch2 with
    | none => .goPanic "index out of range"
    | some (idx, s2) =>
      match s2.currentScope.names.get? idx with
      | none => .goPanic "index out of range"
      | some name =>
        match p.1 with
        | .goZero => .goPanic "nil pointer dereference"
        | obj =>
          match getAttr obj name with
          | none => .errR "attribute not found" s2
          | some v => .next (s2.push v)
  else if opcode = opLoadConst then
    match s.fetch2 with
    | none => .goPanic "index out of range"
    | some (idx, s2) =>
      match s2.currentScope.constants.get? idx with
      | none => .goPanic "index out of range"
      | some v => .next (s2.push v)
  else if opcode = opLoadFast then
    match s.fetch2 with
    | none => .goPanic "index out of range"
    | some (idx, s2) =>
      match s2.frames with
      | [] => .goPanic "unreachable"
      | frame :: _ =>
        if idx < frame.localsLen then
          match s2.store.get? (frame.localsBase + idx) with
          | none => .goPanic "index out of range"
          | some v => .next (s2.push v)
        else .goPanic "index out of range"
  else if opcode = opLoadGlobal then
    match s.fetch2 with
    | none => .goPanic "index out of range"
    | some (idx, s2) =>
      match s2.globals.get? idx with
      | none => .goPanic "index out of range"
      | some v => .next (s2.push v)
  else if opcode = opLoadFree then
    match s.frames with
    | [] => .goPanic "unreachable"
    | frame :: _ =>
      match frame.fn with
      | none => .goPanic "nil pointer dereference"
      | some meta =>
        match s.fetch2 with
        | none => .goPanic "index out of range"
        | some (idx, s2) =>
          match meta.freeVars.get? idx with
          | none => .goPanic "index out of range"
          | some addr =>
            match s2.store.get? addr with
            | none => .goPanic "index out of range"
            | some v => .next (s2.push v)
  else if opcode = opStoreFast then
    match s.fetch with
    | none => .goPanic "index out of range"
    | some (idx, s2) =>
      let p := s2.pop
      match p.2.frames with
      | [] => .goPanic "unreachable"
      | frame :: _ =>
        if idx < frame.localsLen then
          .next { p.2 with store := p.2.store.set (frame.localsBase + idx) p.1 }
        else .goPanic "index out of range"
  else if opcode = opStoreGlobal then
    match s.fetch2 with
    | none => .goPanic "index out of range"
    | some (idx, s2) =>
      let p := s2.pop
      if idx < p.2.globals.length then
        .next { p.2 with globals := p.2.globals.set idx p.1 }
      else .goPanic "index out of range"
  else if opcode = opStoreFree then
    match s.frames with
    | [] => .goPanic "unreachable"
    | frame :: _ =>
      match frame.fn with
      | none => .goPanic "nil pointer dereference"
      | some meta =>
        match s.fetch2 with
        | none => .goPanic "index out of range"
        | some (idx, s2) =>
          match meta.freeVars.get? idx with
          | none => .goPanic "index out of range"
          | some addr =>
            let p := s2.pop
            .next { p.2 with store := p.2.store.set addr p.1 }
  else if opcode = opLoadClosure then
    match s.fetch2 with
    | none => .goPanic "index out of range"
    | some (constIndex, s2) =>
      match s2.fetch2 with
      | none => .goPanic "index out of range"
      | some (freeCount, s3) => execLoadClosure constIndex freeCount s3
  else if opcode = opMakeCell then
    match s.fetch2 with
    | none => .goPanic "index out of range"
    | some (symbolIndex, s2) =>
      match s2.fetch with
      | none => .goPanic "index out of range"
      | some (framesBack, s3) => execMakeCell symbolIndex framesBack s3
  else if opcode = opNil then .next (s.push .nil)
  else if opcode = opTrue then .next (s.push (.boolean true))
  else if opcode = opFalse then .next (s.push (.boolean false))
  else if opcode = opCompareOp then
    match s.fetch with
    | none => .goPanic "index out of range"
    | some (kind, s2) =>
      let pb := s2.pop
      let pa := pb.2.pop
      match runCompareOp kind pa.1 pb.1 with
      | .okV v => .next (pa.2.push v)
      | .goPanic m => .goPanic m
  else if opcode = opBinaryOp then
    match s.fetch with
    | none => .goPanic "index out of range"
    | some (kind, s2) =>
      let pb := s2.pop
      let pa := pb.2.pop
      match runBinaryOp kind pa.1 pb.1 with
      | .okV v => .next (pa.2.push v)
      | .goPanic m => .goPanic m
  else if opcode = opCall then
    match s.fetch with
    | none => .goPanic "index out of range"
    | some (argc, s2) => execCall argc s2
  else if opcode = opReturnValue then execReturnValue s
  else if opcode = opPopJumpForwardIfTrue then
    let p := s.pop
    match p.2.fetch2 with
    | none => .goPanic "index out of range"
    | some (delta, s2) =>
      match isTruthy p.1 with
      | none => .goPanic "nil pointer dereference"
      | some t =>
        if t then .next { s2 with ip := s2.ip + ((delta : Int) - 3) } else .next s2
  else if opcode = opPopJumpForwardIfFalse then
    let p := s.pop
    match p.2.fetch2 with
    | none => .goPanic "index out of range"
    | some (delta, s2) =>
      match isTruthy p.1 with
      | none => .goPanic "nil pointer dereference"
      | some t =>
        if !t then .next { s2 with ip := s2.ip + ((delta : Int) - 3) } else .next s2
  else if opcode = opPopJumpBackwardIfTrue then
    let p := s.pop
    match p.2.fetch2 with
    | none => .goPanic "index out of range"
    | some (delta, s2) =>
      match isTruthy p.1 with
      | none => .goPanic "nil pointer dereference"
      | some t =>
        if t then .next { s2 with ip := s2.ip - ((delta : Int) - 3) } else .next s2
  else if opcode = opPopJumpBackwardIfFalse then
    let p := s.pop
    match p.2.fetch2 with
    | none => .goPanic "index out of range"
    | some (delta, s2) =>
      match isTruthy p.1 with
      | none => .goPanic "nil pointer dereference"
      | some t =>
        if !t then .next { s2 with ip := s2.ip - ((delta : Int) - 3) } else .next s2
  else if opcode = opJumpForward then
    let base := s.ip - 1
    match s.fetch2 with
    | none => .goPanic "index out of range"
    | some (delta, s2) => .next { s2 with ip := base + (delta : Int) }
  else if opcode = opJumpBackward then
    let base := s.ip - 1
    match s.fetch2 with
    | none => .goPanic "index out of range"
    | some (delta, s2) => .next { s2 with ip := base - (delta : Int) }
  else if opcode = opPrint then .next s
  else if opcode = opBuildList then
    match s.fetch2 with
    | none => .goPanic "index out of range"
    | some (count, s2) =>
      let p := popArgs count s2
      .next (p.2.push (.list p.1))
  else if opcode = opBuildMap then
    match s.fetch2 with
    | none => .goPanic "index out of range"
    | some (count, s2) =>
      match popMapPairs count s2 with
      | none => .goPanic "interface conversion"
      | some (ps, s3) => .next (s3.push (.mapO ps))
  else if opcode = opBuildSet then
    match s.fetch2 with
    | none => .goPanic "index out of range"
    | some (count, s2) =>
      let p := popSetItems count s2
      .next (p.2.push (.setO p.1))
  else if opcode = opBinarySubscr then
    let pi := s.pop
    let po := pi.2.pop
    match po.1 with
    | .list xs =>
      match getItem (.list xs) pi.1 with
      | .ok v => .next (po.2.push v)
      | .error m => .errR m po.2
    | .mapO ps =>
      match getItem (.mapO ps) pi.1 with
      | .ok v => .next (po.2.push v)
      | .error m => .errR m po.2
    | .setO ps =>
      match getItem (.setO ps) pi.1 with
      | .ok v => .next (po.2.push v)
      | .error m => .errR m po.2
    | _ => .errR "object is not a container" po.2
  else if opcode = opUnaryNegative then
    let p := s.pop
    match p.1 with
    | .int x => .next (p.2.push (.int (wrap64 (-x))))
    | _ => .errR "object is not a number" p.2
  else if opcode = opUnaryNot then
    let p := s.pop
    match isTruthy p.1 with
    | none => .goPanic "nil pointer dereference"
    | some t => .next (p.2.push (.boolean !t))
  else if opcode = opContainsOp then
    let po := s.pop
    let pc := po.2.pop
    match pc.2.fetch with
    | none => .goPanic "index out of range"
    | some (invert, s2) =>
      match objContains pc.1 po.1 with
      | some v => .next (s2.push (if invert = 1 then objNot v else v))
      | none => .errR "object is not a container" s2
  else if opcode = opHalt then .halted s
  else .errR "unknown opcode" s

/-- Result of `VM.Run` (and of the `Run` façade's VM part): normal
termination keeps the VM state (the caller can still read the stack
and globals), a returned error likewise, a Go panic unwinds through
the caller and kills the process. -/
inductive RunRes where
  | finished : VMSt → RunRes
  | errR : String → VMSt → RunRes
  | goPanic : String → RunRes
  | fuelOut : RunRes
deriving Repr

/-- The dispatch loop of `VM.Run` (vm.go, line 99: `for vm.ip <
len(vm.currentScope.Instructions)`), with fuel to keep the model
total; every claim is settled at an explicit fuel. -/
def runVM : Nat → VMSt → RunRes
  | 0, _ => .fuelOut
  | fuel + 1, s =>
    if s.ip < (s.currentScope.instructions.length : Int) then
      match step s with
      | .next s2 => runVM fuel s2
      | .halted s2 => .finished s2
      | .errR m s2 => .errR m s2
      | .goPanic m => .goPanic m
    else .finished s

/-! ## Symbol tables

Modelled from the spec (§3, §4.1): the `symbol` package is not under
`src/`.  A symbol records name, per-scope-class index and optional
attribute value; tables form a tree of block and function children;
block children share the enclosing function's variable index counter;
a lookup hit in an enclosing function promotes the symbol to `Free`,
assigns it the next free index of the current function, and records a
`{symbol, depth}` resolution (depth = number of function boundaries
crossed) on the current function's free list; hits in the root table
stay `Global` from any depth; builtins live in their own index space
on the root table. -/

structure SymAttrs where
  value : Option Obj
deriving Repr

structure Sym where
  name : String
  index : Nat
  attrs : SymAttrs
deriving Repr

inductive SymScope where
  | scopeGlobal : SymScope
  | scopeLocal : SymScope
  | scopeFree : SymScope
  | scopeBuiltin : SymScope
deriving Repr, DecidableEq

structure Resolution where
  symbol : Sym
  depth : Nat
deriving Repr

structure STable where
  isFunction : Bool
  entries : List (String × Sym × SymScope)
  count : Nat
  freeList : List Resolution
  builtins : List (String × Sym)
deriving Repr

def freshTable (isFn : Bool) : STable :=
  ⟨isFn, [], 0, [], []⟩

/-- `Loop` (src/unnamed/part_002, lines 24-27). -/
structure Loop where
  continuePos : List Nat
  breakPos : List Nat
deriving Repr

/-- `Scope` of the compiler package (spec §3 `CompilationScope`): the
block-structured symbol state of a scope is its list of tables, head =
innermost block, last = the scope's own function (or root) table. -/
structure Scope where
  name : String
  isNamed : Bool
  symbols : List STable
  instructions : List Nat
  constants : List Obj
  names : List String
  loops : List Loop
deriving Repr

/-- `Compiler` (src/unnamed/part_002, lines 12-16): the `main`/
`current` scope pointers and parent links are modelled as the zipper
of open scopes, head = current, last = main. -/
structure Compiler where
  scopes : List Scope
deriving Repr

def modifyCurrent (c : Compiler) (f : Scope → Scope) : Compiler :=
  match c.scopes with
  | [] => c
  | cur :: rest => ⟨f cur :: rest⟩

def currentScopeOf (c : Compiler) : Option Scope :=
  c.scopes.head?

def currentInstructions (c : Compiler) : List Nat :=
  ((currentScopeOf c).map (fun sc => sc.instructions)).getD []

/-- `Compiler.Instructions` (src/unnamed/part_002, lines 48-50):
returns the MAIN scope's instructions, not the current scope's. -/
def mainInstructions (c : Compiler) : List Nat :=
  ((c.scopes.getLast?).map (fun sc => sc.instructions)).getD []

/-- `Compiler.emit` (src/unnamed/part_002, lines 684-693): append
`MakeInstruction opcode operands` to the CURRENT scope's buffer and
return the `uint16` position of the opcode. -/
def emitP (c : Compiler) (opcode : Nat) (operands : List Nat) : Compiler × Nat :=
  match c.scopes with
  | [] => (c, 0)
  | cur :: rest =>
    let pos := cur.instructions.length
    (⟨{ cur with instructions := cur.instructions ++ MakeInstruction opcode operands } :: rest⟩,
     pos % 65536)

/-- `emit` at a call site that discards the returned position. -/
def emitC (c : Compiler) (opcode : Nat) (operands : List Nat) : Compiler :=
  (emitP c opcode operands).1

/-- `Compiler.constant` (src/unnamed/part_002, lines 677-682): append
to the current scope's constant pool and return `uint16(len - 1)`.
The source carries a `TODO: error if > 65535` — there is no overflow
check, the returned index silently truncates. -/
def scopeConstant (sc : Scope) (obj : Obj) : Scope × Nat :=
  let sc2 := { sc with constants := sc.constants ++ [obj] }
  (sc2, (sc2.constants.length - 1) % 65536)

def compilerConstant (c : Compiler) (obj : Obj) : Compiler × Nat :=
  match c.scopes with
  | [] => (c, 0)
  | cur :: rest =>
    let p := scopeConstant cur obj
    (⟨p.1 :: rest⟩, p.2)

/-- `Compiler.calculateDelta` (src/unnamed/part_002, lines 622-625):
`uint16(len(current.Instructions)) - pos` in `uint16` arithmetic. -/
def calculateDelta (c : Compiler) (pos : Nat) : Nat :=
  ((currentInstructions c).length % 65536 + 65536 - pos % 65536) % 65536

/-- `Compiler.changeOperand` (src/unnamed/part_002, lines 627-629):
overwrite the single code word at `pos + 1` in the current scope. -/
def changeOperand (c : Compiler) (pos operand : Nat) : Compiler :=
  modifyCurrent c (fun sc =>
    { sc with instructions := sc.instructions.set (pos + 1) (operand % 65536) })

def updateLastTable (ts : List STable) (f : STable → STable) : List STable :=
  match ts with
  | [] => []
  | [t] => [f t]
  | t :: rest => t :: updateLastTable rest f

def bumpLastCount (ts : List STable) : List STable :=
  updateLastTable ts (fun t => { t with count := t.count + 1 })

def addEntryHead (ts : List STable) (e : String × Sym × SymScope) : List STable :=
  match ts with
  | [] => []
  | t :: rest => { t with entries := t.entries ++ [e] } :: rest

def lastCount (ts : List STable) : Nat :=
  ((ts.getLast?).map (fun t => t.count)).getD 0

def headHas (ts : List STable) (name : String) : Bool :=
  match ts with
  | [] => false
  | t :: _ => t.entries.any (fun e => e.1 == name)

/-- `SymbolTable.InsertVariable`: fails on redeclaration in the same
block, otherwise assigns the enclosing function's next variable index
(block tables thread through to it) and records the entry with class
Global (root scope) or Local. -/
def insertVariable (c : Compiler) (name : String) : Except String (Sym × Compiler) :=
  match c.scopes with
  | [] => .error "no scope"
  | cur :: rest =>
    if headHas cur.symbols name then .error ("variable already declared: " ++ name)
    else
      let idx := lastCount cur.symbols
      let cls := if rest.isEmpty then SymScope.scopeGlobal else SymScope.scopeLocal
      let sym : Sym := ⟨name, idx, ⟨none⟩⟩
      let ts := bumpLastCount (addEntryHead cur.symbols (name, sym, cls))
      .ok (sym, ⟨{ cur with symbols := ts } :: rest⟩)

/-- `InsertVariable` at the call sites that discard its result
(src/unnamed/part_002, lines 404-409: parameter and own-name insertion
ignore the returned error). -/
def insertVariableIgnore (c : Compiler) (name : String) : Compiler :=
  match insertVariable c name with
  | .ok r => r.2
  | .error _ => c

/-- `SymbolTable.InsertBuiltin` via `compiler.New`: builtins get their
own dense index space on the root table and carry their value as the
symbol's attribute. -/
def insertBuiltin (c : Compiler) (name : String) (value : Obj) : Compiler :=
  modifyCurrent c (fun sc =>
    { sc with symbols := updateLastTable sc.symbols (fun t =>
        { t with builtins :=
            t.builtins ++ [(name, ⟨name, t.builtins.length, ⟨some value⟩⟩)] }) })

def newBlockC (c : Compiler) : Compiler :=
  modifyCurrent c (fun sc => { sc with symbols := freshTable false :: sc.symbols })

def popBlockC (c : Compiler) : Compiler :=
  modifyCurrent c (fun sc => { sc with symbols := sc.symbols.tail })

def findInTables (ts : List STable) (name : String) : Option (Sym × SymScope) :=
  match ts with
  | [] => none
  | t :: rest =>
    match t.entries.find? (fun e => e.1 == name) with
    | some e => some (e.2.1, e.2.2)
    | none => findInTables rest name

def rootBuiltins (sc : Scope) : List (String × Sym) :=
  ((sc.symbols.getLast?).map (fun t => t.builtins)).getD []

/-- Free promotion on a lookup hit `depth ≥ 1` function boundaries
out: assign the current function's next free index, record the entry on
the current scope's function table (so later lookups resolve it
directly and no duplicate resolution is recorded) and append the
`{symbol, depth}` resolution to its free list. -/
def promoteFree (c : Compiler) (orig : Sym) (d : Nat) (name : String) :
    Option (SymScope × Sym × Compiler) :=
  match c.scopes with
  | [] => none
  | cur :: rest =>
    let fidx := (((cur.symbols.getLast?).map (fun t => t.freeList.length))).getD 0
    let fsym : Sym := ⟨name, fidx, ⟨none⟩⟩
    let ts := updateLastTable cur.symbols (fun t =>
      { t with entries := t.entries ++ [(name, fsym, SymScope.scopeFree)],
               freeList := t.freeList ++ [⟨orig, d⟩] })
    some (SymScope.scopeFree, fsym, ⟨{ cur with symbols := ts } :: rest⟩)

def lookupWalk (c : Compiler) (scopes : List Scope) (d : Nat) (name : String) :
    Option (SymScope × Sym × Compiler) :=
  match scopes with
  | [] => none
  | sc :: rest =>
    match findInTables sc.symbols name with
    | some (sym, cls) =>
      match cls with
      | SymScope.scopeGlobal => some (SymScope.scopeGlobal, sym, c)
      | SymScope.scopeBuiltin => some (SymScope.scopeBuiltin, sym, c)
      | _ =>
        if d = 0 then some (cls, sym, c)
        else promoteFree c sym d name
    | none =>
      if rest.isEmpty then
        match (rootBuiltins sc).find? (fun p => p.1 == name) with
        | some p => some (SymScope.scopeBuiltin, p.2, c)
        | none => none
      else lookupWalk c rest (d + 1) name

/-- `SymbolTable.Lookup` (spec §4.1): resolve through block parents in
the same index space, then through function parents with free
promotion; builtins are resolved at the root. -/
def lookupSym (c : Compiler) (name : String) : Option (SymScope × Sym × Compiler) :=
  lookupWalk c c.scopes 0 name

/-- `Scope.Symbols.Size()`: the scope's function-level variable count. -/
def scopeSymSize (sc : Scope) : Nat :=
  ((sc.symbols.getLast?).map (fun t => t.count)).getD 0

/-- `Scope.Symbols.Free()`: the resolutions recorded on the scope's
function table. -/
def scopeFreeList (sc : Scope) : List Resolution :=
  ((sc.symbols.getLast?).map (fun t => t.freeList)).getD []

/-- `compiler.New` (src/unnamed/part_002, lines 29-42) with
`Options{Name, Builtins}`. -/
def newCompiler (builtins : List (String × Obj)) (name : String) : Compiler :=
  let mainScope : Scope := ⟨name, false, [freshTable true], [], [], [], []⟩
  builtins.foldl (fun c p => insertBuiltin c p.1 p.2) ⟨[mainScope]⟩

/-! ## AST

The parser and its AST are external collaborators (spec §1); this is
the subset of `ast` node shapes the claims exercise, carrying exactly
what the compiler reads from them.  `control` carries the literal
("return", "break" or "continue") and a value expression that only
the "return" path compiles. -/

inductive AST where
  | nilLit : AST
  | intLit : Int → AST
  | boolLit : Bool → AST
  | ident : String → AST
  | varDecl : String → AST → AST
  | assign : String → String → AST → AST
  | infixExpr : String → AST → AST → AST
  | ifExpr : AST → AST → Option AST → AST
  | program : List AST → AST
  | block : List AST → AST
  | funcDef : Option String → List String → List AST → AST
  | callExpr : AST → List AST → AST
  | control : String → AST → AST
  | forSimple : AST → AST
deriving Repr

def isControl : AST → Bool
  | .control _ _ => true
  | _ => false

/-! ## Compiler -/

def currentLoop (c : Compiler) : Option Loop :=
  match c.scopes with
  | [] => none
  | sc :: _ => sc.loops.getLast?

def startLoop (c : Compiler) : Compiler :=
  modifyCurrent c (fun sc => { sc with loops := sc.loops ++ [⟨[], []⟩] })

def endLoop (c : Compiler) : Compiler :=
  modifyCurrent c (fun sc => { sc with loops := sc.loops.dropLast })

def updateLastLoop (ls : List Loop) (f : Loop → Loop) : List Loop :=
  match ls with
  | [] => []
  | [l] => [f l]
  | l :: rest => l :: updateLastLoop rest f

def appendBreakPos (c : Compiler) (pos : Nat) : Compiler :=
  modifyCurrent c (fun sc =>
    { sc with loops := updateLastLoop sc.loops (fun l => { l with breakPos := l.breakPos ++ [pos] }) })

def appendContinuePos (c : Compiler) (pos : Nat) : Compiler :=
  modifyCurrent c (fun sc =>
    { sc with loops := updateLastLoop sc.loops (fun l => { l with continuePos := l.continuePos ++ [pos] }) })

def compileSeq (cmp : AST → Compiler → Except String Compiler) :
    List AST → Compiler → Except String Compiler
  | [], c => .ok c
  | stmt :: rest, c =>
    match cmp stmt c with
    | .error e => .error e
    | .ok c2 => compileSeq cmp rest c2

/-- The Ident emission switch (src/unnamed/part_002, lines 131-140),
shared with the LHS-load of compound assignment (lines 513-522). -/
def emitLoad (c : Compiler) (cls : SymScope) (sym : Sym) : Compiler :=
  match cls with
  | SymScope.scopeGlobal => emitC c opLoadGlobal [sym.index]
  | SymScope.scopeLocal => emitC c opLoadFast [sym.index]
  | SymScope.scopeFree => emitC c opLoadFree [sym.index]
  | SymScope.scopeBuiltin => emitC c opLoadBuiltin [sym.index]

/-- The store switches of `compileAssign` (src/unnamed/part_002, lines
500-509 and 539-548): note the `ScopeBuiltin` arm emits `LoadBuiltin`
— a load, not a store. -/
def emitStore (c : Compiler) (cls : SymScope) (sym : Sym) : Compiler :=
  match cls with
  | SymScope.scopeGlobal => emitC c opStoreGlobal [sym.index]
  | SymScope.scopeLocal => emitC c opStoreFast [sym.index]
  | SymScope.scopeFree => emitC c opStoreFree [sym.index]
  | SymScope.scopeBuiltin => emitC c opLoadBuiltin [sym.index]

/-- The compound-operator switch of `compileAssign` (lines 528-537);
an unrecognized operator emits nothing (the switch has no default). -/
def emitCompound (c : Compiler) (operator : String) : Compiler :=
  if operator = "+=" then emitC c opBinaryOp [opAdd]
  else if operator = "-=" then emitC c opBinaryOp [opSubtract]
  else if operator = "*=" then emitC c opBinaryOp [opMultiply]
  else if operator = "/=" then emitC c opBinaryOp [opDivide]
  else c

/-- `Compiler.compileAssign` (src/unnamed/part_002, lines 490-550). -/
def compileAssign (cmp : AST → Compiler → Except String Compiler)
    (name operator : String) (value : AST) (c : Compiler) : Except String Compiler :=
  match lookupSym c name with
  | none => .error ("undefined variable: " ++ name)
  | some (cls, sym, c0) =>
    if operator = "=" then
      match cmp value c0 with
      | .error e => .error e
      | .ok c1 => .ok (emitStore c1 cls sym)
    else
      let c1 := emitLoad c0 cls sym
      match cmp value c1 with
      | .error e => .error e
      | .ok c2 => .ok (emitStore (emitCompound c2 operator) cls sym)

/-- `Compiler.compileIf` (src/unnamed/part_002, lines 595-620). -/
def compileIf (cmp : AST → Compiler → Except String Compiler)
    (cond cons : AST) (alt : Option AST) (c : Compiler) : Except String Compiler :=
  match cmp cond c with
  | .error e => .error e
  | .ok c1 =>
    let p := emitP c1 opPopJumpForwardIfFalse [9999]
    let jumpIfFalsePos := p.2
    match cmp cons p.1 with
    | .error e => .error e
    | .ok c3 =>
      match alt with
      | some altAst =>
        let q := emitP c3 opJumpForward [9999]
        let jumpForwardPos := q.2
        let c5 := changeOperand q.1 jumpIfFalsePos (calculateDelta q.1 jumpIfFalsePos)
        match cmp altAst c5 with
        | .error e => .error e
        | .ok c6 => .ok (changeOperand c6 jumpForwardPos (calculateDelta c6 jumpForwardPos))
      | none => .ok (changeOperand c3 jumpIfFalsePos (calculateDelta c3 jumpIfFalsePos))

/-- `Compiler.compileControl` (src/unnamed/part_002, lines 461-488). -/
def compileControl (cmp : AST → Compiler → Except String Compiler)
    (literal : String) (value : AST) (c : Compiler) : Except String Compiler :=
  if literal = "return" then
    if c.scopes.length ≤ 1 then .error "return outside of function"
    else
      match cmp value c with
      | .error e => .error e
      | .ok c1 => .ok (emitC c1 opReturnValue [1])
  else
    match currentLoop c with
    | none =>
      if literal = "break" then .error "break outside of loop"
      else .error "continue outside of loop"
    | some _ =>
      if literal = "break" then
        let p := emitP c opJumpForward [9999]
        .ok (appendBreakPos p.1 p.2)
      else
        let p := emitP c opJumpBackward [9999]
        .ok (appendContinuePos p.1 p.2)

/-- `Compiler.compileSimpleFor` (src/unnamed/part_002, lines 570-593).
Note `startPos` is taken from `c.Instructions()` — the length of the
MAIN scope's buffer — while every other position in this function is
measured in the CURRENT scope's buffer. -/
def compileSimpleFor (cmp : AST → Compiler → Except String Compiler)
    (consequence : AST) (c : Compiler) : Except String Compiler :=
  let c1 := startLoop (newBlockC c)
  let startPos := (mainInstructions c1).length % 65536
  match cmp consequence c1 with
  | .error e => .error e
  | .ok c3 =>
    let c4 := emitC c3 opJumpBackward [calculateDelta c3 startPos]
    let p := emitP c4 opNop []
    let nopPos := p.2
    let loop := (currentLoop p.1).getD ⟨[], []⟩
    let c6 := loop.breakPos.foldl
      (fun cc pos => changeOperand cc pos ((nopPos + 65536 - pos % 65536) % 65536)) p.1
    let c7 := loop.continuePos.foldl
      (fun cc pos => changeOperand cc pos ((pos % 65536 + 65536 - startPos) % 65536)) c6
    .ok (popBlockC (endLoop c7))

/-- `Compiler.compileCall` (src/unnamed/part_002, lines 447-459). -/
def compileCall (cmp : AST → Compiler → Except String Compiler)
    (fn : AST) (args : List AST) (c : Compiler) : Except String Compiler :=
  match cmp fn c with
  | .error e => .error e
  | .ok c1 =>
    match compileSeq cmp args c1 with
    | .error e => .error e
    | .ok c2 => .ok (emitC c2 opCall [args.length])

/-- `Compiler.compileInfix` (src/unnamed/part_002, lines 631-675);
named `compileInfixExpr` here for a reserved word. -/
def compileInfixExpr (cmp : AST → Compiler → Except String Compiler)
    (operator : String) (l r : AST) (c : Compiler) : Except String Compiler :=
  match cmp l c with
  | .error e => .error e
  | .ok c1 =>
    match cmp r c1 with
    | .error e => .error e
    | .ok c2 =>
      if operator = "&&" then .ok (emitC c2 opBinaryOp [opAnd])
      else if operator = "||" then .ok (emitC c2 opBinaryOp [opOr])
      else if operator = "+" then .ok (emitC c2 opBinaryOp [opAdd])
      else if operator = "-" then .ok (emitC c2 opBinaryOp [opSubtract])
      else if operator = "*" then .ok (emitC c2 opBinaryOp [opMultiply])
      else if operator = "/" then .ok (emitC c2 opBinaryOp [opDivide])
      else if operator = "%" then .ok (emitC c2 opBinaryOp [opModulo])
      else if operator = "**" then .ok (emitC c2 opBinaryOp [opPower])
      else if operator = "<<" then .ok (emitC c2 opBinaryOp [opLShift])
      else if operator = ">>" then .ok (emitC c2 opBinaryOp [opRShift])
      else if operator = ">" then .ok (emitC c2 opCompareOp [opGreaterThan])
      else if operator = ">=" then .ok (emitC c2 opCompareOp [opGreaterThanOrEqual])
      else if operator = "<" then .ok (emitC c2 opCompareOp [opLessThan])
      else if operator = "<=" then .ok (emitC c2 opCompareOp [opLessThanOrEqual])
      else if operator = "==" then .ok (emitC c2 opCompareOp [opEqual])
      else if operator = "!=" then .ok (emitC c2 opCompareOp [opNotEqual])
      else .error ("unknown operator: " ++ operator)

/-- The closure-construction tail of `Compiler.compileFunc`
(src/unnamed/part_002, lines 423-432), emitted into the parent scope
after the function scope is sealed: one `MakeCell(sym_idx, depth-1)`
per free resolution, then `LoadClosure(constant(fn), free_count)`;
without free symbols just `LoadConst(constant(fn))`. -/
def emitFunction (c : Compiler) (fn : Obj) (freeSymbols : List Resolution) : Compiler :=
  if freeSymbols.length > 0 then
    let c1 := freeSymbols.foldl
      (fun cc r => emitC cc opMakeCell [r.symbol.index, r.depth - 1]) c
    let p := compilerConstant c1 fn
    emitC p.1 opLoadClosure [p.2, freeSymbols.length]
  else
    let p := compilerConstant c fn
    emitC p.1 opLoadConst [p.2]

/-- `Compiler.compileFunc` (src/unnamed/part_002, lines 369-445).
Parameter and own-name insertions discard errors (as the source
does); the own name is inserted after the parameters, so its local
slot index equals the parameter count; an empty body gets `Nil;
ReturnValue`, a body not ending in a Control statement gets an
implicit `ReturnValue`.  Defaults are not modelled (the source writes
a placeholder and no claim depends on them). -/
def compileFunc (cmp : AST → Compiler → Except String Compiler)
    (nameOpt : Option String) (params : List String) (body : List AST)
    (c : Compiler) : Except String Compiler :=
  let name := nameOpt.getD ""
  let funcScope : Scope := ⟨name, nameOpt.isSome, [freshTable true], [], [], [], []⟩
  let c1 : Compiler := ⟨funcScope :: c.scopes⟩
  let c2 := params.foldl (fun cc p => insertVariableIgnore cc p) c1
  let c3 := match nameOpt with
    | some n => insertVariableIgnore c2 n
    | none => c2
  match compileSeq cmp body c3 with
  | .error e => .error e
  | .ok c4 =>
    let c5 :=
      match body.getLast? with
      | none => emitC (emitC c4 opNil []) opReturnValue [1]
      | some lastStmt => if isControl lastStmt then c4 else emitC c4 opReturnValue [1]
    match c5.scopes with
    | [] => .error "unreachable"
    | funcScope2 :: parentScopes =>
      let cParent : Compiler := ⟨parentScopes⟩
      let freeSymbols := scopeFreeList funcScope2
      let meta : FnMeta := ⟨name, params, funcScope2.isNamed, scopeSymSize funcScope2,
                            funcScope2.instructions, funcScope2.names, []⟩
      let fn : Obj := .compiledFunction meta funcScope2.constants
      let c6 := emitFunction cParent fn freeSymbols
      match nameOpt with
      | some n =>
        match insertVariable c6 n with
        | .error e => .error e
        | .ok (funcSymbol, c7) =>
          if c7.scopes.length = 1 then .ok (emitC c7 opStoreGlobal [funcSymbol.index])
          else .ok (emitC c7 opStoreFast [funcSymbol.index])
      | none => .ok c6

/-- `Compiler.compile` (src/unnamed/part_002, lines 66-201), with fuel
making the recursion over the tree manifestly total. -/
def compile : Nat → AST → Compiler → Except String Compiler
  | 0, _, _ => .error "compile fuel exhausted"
  | fuel + 1, node, c =>
    match node with
    | .nilLit => .ok (emitC c opNil [])
    | .intLit i =>
      let p := compilerConstant c (.int i)
      .ok (emitC p.1 opLoadConst [p.2])
    | .boolLit b => .ok (emitC c (if b then opTrue else opFalse) [])
    | .ifExpr cond cons alt => compileIf (compile fuel) cond cons alt c
    | .program stmts => compileSeq (compile fuel) stmts c
    | .block stmts =>
      match compileSeq (compile fuel) stmts (newBlockC c) with
      | .error e => .error e
      | .ok c2 => .ok (popBlockC c2)
    | .varDecl name expr =>
      match compile fuel expr c with
      | .error e => .error e
      | .ok c1 =>
        match insertVariable c1 name with
        | .error e => .error e
        | .ok (sym, c2) =>
          if c2.scopes.length = 1 then .ok (emitC c2 opStoreGlobal [sym.index])
          else .ok (emitC c2 opStoreFast [sym.index])
    | .assign name operator value => compileAssign (compile fuel) name operator value c
    | .ident name =>
      match lookupSym c name with
      | none => .error ("undefined variable: " ++ name)
      | some (cls, sym, c1) => .ok (emitLoad c1 cls sym)
    | .forSimple consequence => compileSimpleFor (compile fuel) consequence c
    | .control literal value => compileControl (compile fuel) literal value c
    | .callExpr fn args => compileCall (compile fuel) fn args c
    | .funcDef nameOpt params body => compileFunc (compile fuel) nameOpt params body c
    | .infixExpr operator l r => compileInfixExpr (compile fuel) operator l r c

/-- `Compiler.Compile` (src/unnamed/part_002, lines 59-64): compile the
program and return the main scope. -/
def compiledMainScope (builtins : List (String × Obj)) (prog : AST) (fuel : Nat) :
    Except String Scope :=
  match compile fuel prog (newCompiler builtins "main") with
  | .error e => .error e
  | .ok c =>
    match c.scopes.getLast? with
    | some sc => .ok sc
    | none => .error "no scope"

/-! ## VM construction and the `Run` façade -/

/-- `vm.New` (src/internal/vm/vm.go, lines 56-85): globals sized to the
main symbol table's map and pre-populated from symbols carrying an
attribute value (only builtins do); the base frame is initialized to
the main scope with locals sized to its symbol count (`Frame.Init` is
modelled from the spec's Frame contract). -/
def newVM (main : Scope) : VMSt :=
  let rootTable := ((main.symbols.getLast?)).getD (freshTable true)
  let syms := rootTable.entries.map (fun e => e.2.1) ++ rootTable.builtins.map (fun p => p.2)
  let globals := syms.foldl
    (fun g sym =>
      match sym.attrs.value with
      | some v => g.set sym.index v
      | none => g)
    (List.replicate syms.length Obj.goZero)
  let size := rootTable.count
  let scopeData : ScopeData := ⟨main.instructions, main.constants, main.names⟩
  { ip := 0, stack := [],
    frames := [⟨none, 0, size, 0, scopeData⟩],
    globals := globals,
    store := List.replicate size Obj.goZero,
    currentScope := scopeData }

/-- Result of the `Run(code)` façade (vm.go, lines 20-38) without the
external parser: compile error, or the VM run outcome. -/
inductive ProgRes where
  | compileErr : String → ProgRes
  | runRes : RunRes → ProgRes
deriving Repr

def runProgram (builtins : List (String × Obj)) (prog : AST) (cfuel rfuel : Nat) : ProgRes :=
  match compiledMainScope builtins prog cfuel with
  | .error e => .compileErr e
  | .ok sc => .runRes (runVM rfuel (newVM sc))

def progPanicMsg : ProgRes → Option String
  | .runRes (.goPanic m) => some m
  | _ => none

def progErrMsg : ProgRes → Option String
  | .runRes (.errR m _) => some m
  | _ => none

def progErrState : ProgRes → Option VMSt
  | .runRes (.errR _ s) => some s
  | _ => none

def progStack : ProgRes → Option (List Obj)
  | .runRes (.finished s) => some s.stack
  | _ => none

/-! ## Result projections used by the claim statements -/

def stepNextState (s : VMSt) : Option VMSt :=
  match step s with
  | .next s2 => some s2
  | _ => none

def stepErrMsg : StepRes → Option String
  | .errR m _ => some m
  | _ => none

def stepErrState : StepRes → Option VMSt
  | .errR _ s => some s
  | _ => none

def runErrMsg : RunRes → Option String
  | .errR m _ => some m
  | _ => none

def scopeInstrs : Except String Scope → Option (List Nat)
  | .ok sc => some sc.instructions
  | .error _ => none

def constantAt (r : Except String Scope) (i : Nat) : Option Obj :=
  match r with
  | .ok sc => sc.constants.get? i
  | .error _ => none

def fnInstructionsOf : Option Obj → Option (List Nat)
  | some (.compiledFunction m _) => some m.instructions
  | _ => none

/-- Constant `i` of a compiled function's own scope (for reaching a
nested function). -/
def fnConstantOf : Option Obj → Nat → Option Obj
  | some (.compiledFunction _ cs), i => cs.get? i
  | _, _ => none

/-! ## Concrete programs and machine states used to settle the claims -/

/-- Scenario 6 of the spec (§8):
`func fact(n){ if n <= 1 { return 1 }; return n * fact(n-1) }; fact(5)`. -/
def factProg : AST :=
  .program [
    .funcDef (some "fact") ["n"] [
      .ifExpr (.infixExpr "<=" (.ident "n") (.intLit 1))
        (.block [.control "return" (.intLit 1)]) none,
      .control "return" (.infixExpr "*" (.ident "n")
        (.callExpr (.ident "fact") [.infixExpr "-" (.ident "n") (.intLit 1)]))
    ],
    .callExpr (.ident "fact") [.intLit 5]
  ]

/-- Scenario 3 of the spec (§8):
`func mk(){ var n = 0; func inc(){ n = n + 1; return n }; return inc };
var f = mk(); f(); f(); f()`. -/
def counterProg : AST :=
  .program [
    .funcDef (some "mk") [] [
      .varDecl "n" (.intLit 0),
      .funcDef (some "inc") [] [
        .assign "n" "=" (.infixExpr "+" (.ident "n") (.intLit 1)),
        .control "return" (.ident "n")
      ],
      .control "return" (.ident "inc")
    ],
    .varDecl "f" (.callExpr (.ident "mk") []),
    .callExpr (.ident "f") [],
    .callExpr (.ident "f") [],
    .callExpr (.ident "f") []
  ]

/-- `var a = 1; func g(){ for { continue } }` — a simple loop compiled
inside a function body, with code already emitted into the main scope. -/
def loopInFuncProg : AST :=
  .program [
    .varDecl "a" (.intLit 1),
    .funcDef (some "g") [] [.forSimple (.block [.control "continue" .nilLit])]
  ]

/-- `for { continue }` — the same loop at top level. -/
def loopTopProg : AST :=
  .program [.forSimple (.block [.control "continue" .nilLit])]

/-- `for { break }; true` — a top-level loop whose break should land on
the Nop, after which `true` should be pushed. -/
def breakTopProg : AST :=
  .program [.forSimple (.block [.control "break" .nilLit]), .boolLit true]

/-- `if false { 1 }; true` — the falsy branch should skip the
consequence and resume at the trailing `true`. -/
def ifFalseProg : AST :=
  .program [.ifExpr (.boolLit false) (.block [.intLit 1]) none, .boolLit true]

/-- `if true { 1 }` — the truthy branch should run the consequence. -/
def ifTrueProg : AST :=
  .program [.ifExpr (.boolLit true) (.block [.intLit 1]) none]

/-- A single builtin named `len`, as installed by `compiler.New`. -/
def builtinLen : List (String × Obj) :=
  [("len", .builtin "len")]

/-- `len += 1` with `len` a builtin. -/
def assignBuiltinCompound : AST :=
  .program [.assign "len" "+=" (.intLit 1)]

/-- `len = true` with `len` a builtin. -/
def assignBuiltinSimple : AST :=
  .program [.assign "len" "=" (.boolLit true)]

/-- A `LoadConst 7` instruction as the compiler emits it, followed by a
`True` instruction, with a constant pool large enough for index 7. -/
def c4Scope : ScopeData :=
  ⟨MakeInstruction opLoadConst [7] ++ MakeInstruction opTrue [],
   List.replicate 8 Obj.nil, []⟩

def c4State : VMSt :=
  ⟨0, [], [⟨none, 0, 0, 0, c4Scope⟩], [], [], c4Scope⟩

/-- A `BinaryOp Div` instruction with Int operands 1 and 0 (divisor on
top of the stack). -/
def c3Scope : ScopeData :=
  ⟨[opBinaryOp, opDivide], [], []⟩

def c3State : VMSt :=
  ⟨0, [Obj.int 0, Obj.int 1], [⟨none, 0, 0, 0, c3Scope⟩], [], [], c3Scope⟩

/-- A named one-parameter function as `compileFunc` seals it (own-name
slot at index `params.len() = 1`, symbol count 2). -/
def factMeta : FnMeta :=
  ⟨"fact", ["n"], true, 2, [], [], []⟩

/-- A `Call 1` of that function with argument `Int 5` on the stack. -/
def c1CallScope : ScopeData :=
  ⟨[opCall, 1], [], []⟩

def c1CallState : VMSt :=
  ⟨0, [Obj.int 5, Obj.compiledFunction factMeta []], [⟨none, 0, 0, 0, c1CallScope⟩],
   [], [], c1CallScope⟩

/-- A `MakeCell sym_idx=1 frames_back=0` instruction in a frame whose
locals are store slots 0 and 1 (slot 1 holding `Int 7`). -/
def c2MakeCellScope : ScopeData :=
  ⟨[opMakeCell, 1, 0, 0], [], []⟩

def c2MakeCellState : VMSt :=
  ⟨0, [], [⟨none, 0, 2, 0, c2MakeCellScope⟩], [], [Obj.nil, Obj.int 7], c2MakeCellScope⟩

/-- A closure whose single captured cell is store slot 1. -/
def c2Meta : FnMeta :=
  ⟨"inc", [], true, 1, [], [], [1]⟩

def c2LoadFreeScope : ScopeData :=
  ⟨[opLoadFree, 0, 0], [], []⟩

def c2LoadFreeState : VMSt :=
  ⟨0, [], [⟨some c2Meta, 2, 1, 0, c2LoadFreeScope⟩], [],
   [Obj.nil, Obj.int 7, Obj.goZero], c2LoadFreeScope⟩

def c2StoreFreeScope : ScopeData :=
  ⟨[opStoreFree, 0, 0], [], []⟩

def c2StoreFreeState : VMSt :=
  ⟨0, [Obj.int 8], [⟨some c2Meta, 2, 1, 0, c2StoreFreeScope⟩], [],
   [Obj.nil, Obj.int 7, Obj.goZero], c2StoreFreeScope⟩

/-- A VM state about to dispatch a `Call argc` instruction. -/
def callState (argc : Nat) (stk : List Obj) (frames : List Frame)
    (gl st cv : List Obj) (nv : List String) : VMSt :=
  ⟨0, stk, frames, gl, st, ⟨[opCall, argc], cv, nv⟩⟩

/-- A VM state about to dispatch a `ReturnValue` instruction. -/
def retState (stk : List Obj) (frames : List Frame)
    (gl st cv : List Obj) (nv : List String) : VMSt :=
  ⟨0, stk, frames, gl, st, ⟨[opReturnValue, 1], cv, nv⟩⟩

/-- A scope whose constant pool already holds 65,536 entries. -/
def bigConstScope : Scope :=
  ⟨"main", false, [freshTable true], [], List.replicate 65536 Obj.nil, [], []⟩

/-- A scope with three constants, for the ordinary-case part of C9. -/
def smallConstScope : Scope :=
  ⟨"main", false, [freshTable true], [], [Obj.nil, Obj.int 1, Obj.int 2], [], []⟩

/-- A VM state about to dispatch a `LoadClosure ci k` instruction (the
two u16 operands laid out as the VM's `fetch2` expects, with zero high
words). -/
def lcState (ci k : Nat) (cs stk : List Obj) (frames : List Frame)
    (gl st : List Obj) (nv : List String) : VMSt :=
  ⟨0, stk, frames, gl, st, ⟨[opLoadClosure, ci, 0, k, 0], cs, nv⟩⟩

/-- A VM state about to dispatch a `MakeCell si fb` instruction. -/
def mcState (si fb : Nat) (stk : List Obj) (frames : List Frame)
    (gl st cv : List Obj) (nv : List String) : VMSt :=
  ⟨0, stk, frames, gl, st, ⟨[opMakeCell, si, 0, fb], cv, nv⟩⟩

/-- A `LoadClosure` whose single popped value is not a cell. -/
def lcBadState : VMSt :=
  ⟨0, [Obj.int 1], [], [], [],
   ⟨[opLoadClosure, 0, 0, 1, 0], [Obj.compiledFunction c2Meta []], []⟩⟩

/-- An arbitrary frame for padding the frame array in instances. -/
def dummyFrame : Frame :=
  ⟨none, 0, 0, 0, ⟨[], [], []⟩⟩

/-- A parent scope into which a closure is emitted (C8 instance). -/
def c8wCur : Scope :=
  ⟨"mk", true, [freshTable true], [], [], [], []⟩

/-- A free-variable resolution: local slot 1 of the declaring function,
one function boundary out (C8 instance). -/
def c8wRes : Resolution :=
  ⟨⟨"n", 1, ⟨none⟩⟩, 1⟩

/-- A frame with two locals at store slots 0 and 1 (C8 instance). -/
def c8wFrame : Frame :=
  ⟨none, 0, 2, 0, ⟨[], [], []⟩⟩

/-- The symbol `compiler.New` records for the builtin `len`. -/
def c10sym : Sym :=
  ⟨"len", 0, ⟨some (.builtin "len")⟩⟩

/-- A compiler constructed with the single builtin `len`. -/
def c10c : Compiler :=
  newCompiler builtinLen "main"

/-- The compiler state after `compileAssign` for `len += true`-style
input has emitted the LHS load and compiled the RHS `true`. -/
def c10cr : Compiler :=
  emitC (emitLoad c10c SymScope.scopeBuiltin c10sym) opTrue []

/-- The compiler state after compiling the RHS `true` alone. -/
def c10crs : Compiler :=
  emitC c10c opTrue []

/-- The single scope of `c10cr`, written out. -/
def c10cur : Scope :=
  ⟨"main", false, [⟨true, [], 0, [], [("len", c10sym)]⟩], [opLoadBuiltin, 0, opTrue], [], [], []⟩

/-- A VM state about to dispatch a `LoadBuiltin` instruction, with
arbitrary stack, frames, globals, store and trailing code. -/
def lbState (stk : List Obj) (frames : List Frame) (gl st cv : List Obj)
    (nvv : List String) (irest : List Nat) : VMSt :=
  ⟨0, stk, frames, gl, st, ⟨opLoadBuiltin :: irest, cv, nvv⟩⟩

/-- `len = 5` with `len` a builtin: a simple assignment whose RHS
compiles to a two-word-operand `LoadConst`. -/
def assignBuiltinSimpleInt : AST :=
  .program [.assign "len" "=" (.intLit 5)]

/-! ## Helper lemmas -/

theorem step_call_red (argc : Nat) (stk : List Obj) (frames : List Frame)
    (gl st cv : List Obj) (nv : List String) :
    step (callState argc stk frames gl st cv nv)
      = execCall (argc % 256) { callState argc stk frames gl st cv nv with ip := 2 } := rfl

theorem step_ret_red (stk : List Obj) (frames : List Frame)
    (gl st cv : List Obj) (nv : List String) :
    step (retState stk frames gl st cv nv)
      = execReturnValue { retState stk frames gl st cv nv with ip := 1 } := rfl

theorem popArgs_exact (args rest : List Obj) (s : VMSt) (h : s.stack = args ++ rest) :
    popArgs args.length s = (args.reverse, { s with stack := rest }) := by
  simp [popArgs, h, List.take_left, List.drop_left]

theorem execCall_overflow (argc : Nat) (args rest : List Obj) (hlen : args.length = argc)
    (meta : FnMeta) (consts : List Obj) (s : VMSt)
    (hstk : s.stack = args ++ Obj.compiledFunction meta consts :: rest)
    (h : s.frames.length - 1 + 1 ≥ 1024) :
    execCall argc s = .errR "frame overflow" { s with stack := rest } := by
  subst hlen
  have hp := popArgs_exact args (Obj.compiledFunction meta consts :: rest) s hstk
  unfold execCall
  rw [hp]
  simp only [VMSt.pop, VMSt.framesIndex, maxFrameDepth]
  split
  · rfl
  · omega

theorem execCall_not_overflow (argc : Nat) (hargc : argc < 255) (args rest : List Obj)
    (hlen : args.length = argc) (meta : FnMeta) (consts : List Obj) (s : VMSt)
    (hstk : s.stack = args ++ Obj.compiledFunction meta consts :: rest)
    (h : s.frames.length - 1 + 1 < 1024) :
    ∃ s2, execCall argc s = .next s2 := by
  subst hlen
  have hp := popArgs_exact args (Obj.compiledFunction meta consts :: rest) s hstk
  unfold execCall
  rw [hp]
  simp only [VMSt.pop, VMSt.framesIndex, maxFrameDepth, maxArgs]
  split
  · omega
  · cases hn : meta.isNamed
    · simp only [hn, Bool.false_eq_true, if_false]
      exact ⟨_, rfl⟩
    · have h255 : ¬ (args.length = 255) := by omega
      simp only [hn, if_true]
      rw [if_neg h255]
      exact ⟨_, rfl⟩

theorem execReturn_underflow (s : VMSt) (h : s.frames.length - 1 = 0) :
    execReturnValue s = .errR "frame underflow" s := by
  unfold execReturnValue
  rw [if_pos]
  simp only [VMSt.framesIndex]
  omega

theorem execReturn_ok (s : VMSt) (h : s.frames.length - 1 ≠ 0) :
    ∃ s2, execReturnValue s = .next s2 := by
  have hne : ¬ (s.framesIndex < 1) := by
    simp only [VMSt.framesIndex]
    omega
  unfold execReturnValue
  rw [if_neg hne]
  obtain ⟨a, b, r2, hfr⟩ : ∃ a b r2, s.frames = a :: b :: r2 := by
    match hh : s.frames with
    | [] => rw [hh] at h; simp at h
    | [a] => rw [hh] at h; simp at h
    | a :: b :: r => exact ⟨a, b, r, rfl⟩
  rw [hfr]
  exact ⟨_, rfl⟩

theorem fetch2Val_lo (w : Nat) (hw : w < 65536) : fetch2Val w 0 = w := by
  simp [fetch2Val, Nat.mod_eq_of_lt hw]
  exact Nat.or_zero w

theorem step_lc_red (ci k : Nat) (cs stk : List Obj) (frames : List Frame)
    (gl st : List Obj) (nv : List String) :
    step (lcState ci k cs stk frames gl st nv)
      = execLoadClosure (fetch2Val ci 0) (fetch2Val k 0)
          { lcState ci k cs stk frames gl st nv with ip := 5 } := rfl

theorem step_mc_red (si fb : Nat) (stk : List Obj) (frames : List Frame)
    (gl st cv : List Obj) (nv : List String) :
    step (mcState si fb stk frames gl st cv nv)
      = execMakeCell (fetch2Val si 0) (fb % 256)
          { mcState si fb stk frames gl st cv nv with ip := 4 } := rfl

theorem popCells_cells (addrs : List Nat) (rest : List Obj) (s : VMSt)
    (h : s.stack = addrs.map Obj.cell ++ rest) :
    popCells addrs.length s = .ok (addrs, { s with stack := rest }) := by
  induction addrs generalizing s with
  | nil =>
    simp at h
    cases s
    simp_all [popCells]
  | cons a as ih =>
    have h2 : s.stack = Obj.cell a :: (as.map Obj.cell ++ rest) := by simp [h]
    simp [popCells, VMSt.pop, h2, ih]

theorem emitMakeCells (fs : List Resolution) (cur : Scope) (rest : List Scope) :
    fs.foldl (fun cc r => emitC cc opMakeCell [r.symbol.index, r.depth - 1]) (⟨cur :: rest⟩ : Compiler)
      = ⟨{ cur with instructions := cur.instructions
             ++ fs.flatMap (fun r => [opMakeCell, r.symbol.index % 65536, (r.depth - 1) % 65536]) } :: rest⟩ := by
  induction fs generalizing cur with
  | nil => simp
  | cons r rs ih =>
    simp only [List.foldl_cons, List.flatMap_cons]
    have h1 : emitC (⟨cur :: rest⟩ : Compiler) opMakeCell [r.symbol.index, r.depth - 1]
        = ⟨{ cur with instructions := cur.instructions
               ++ [opMakeCell, r.symbol.index % 65536, (r.depth - 1) % 65536] } :: rest⟩ := by
      simp [emitC, emitP, MakeInstruction]
    rw [h1, ih]
    simp

theorem emitFunction_free (cur : Scope) (rest : List Scope) (fn : Obj)
    (fs : List Resolution) (hfs : fs ≠ []) :
    currentInstructions (emitFunction (⟨cur :: rest⟩ : Compiler) fn fs)
      = cur.instructions
        ++ fs.flatMap (fun r => [opMakeCell, r.symbol.index % 65536, (r.depth - 1) % 65536])
        ++ [opLoadClosure, cur.constants.length % 65536, fs.length % 65536] := by
  unfold emitFunction
  rw [if_pos (by cases fs with | nil => simp at hfs | cons a as => simp)]
  rw [emitMakeCells]
  simp [compilerConstant, scopeConstant, emitC, emitP, MakeInstruction, currentInstructions,
    currentScopeOf]

theorem step_loadclosure_cells (addrs : List Nat) (orest : List Obj) (ci : Nat)
    (hci : ci < 65536) (hk : addrs.length < 65536) (meta : FnMeta) (consts cs : List Obj)
    (frames : List Frame) (gl st : List Obj) (nv : List String)
    (hconst : cs[ci]? = some (Obj.compiledFunction meta consts)) :
    step (lcState ci addrs.length cs (addrs.map Obj.cell ++ orest) frames gl st nv)
      = .next { lcState ci addrs.length cs (addrs.map Obj.cell ++ orest) frames gl st nv with
                ip := 5, stack := Obj.compiledFunction { meta with freeVars := addrs } consts :: orest } := by
  rw [step_lc_red, fetch2Val_lo ci hci, fetch2Val_lo addrs.length hk]
  unfold execLoadClosure
  rw [popCells_cells addrs orest _ rfl]
  simp [lcState, hconst, VMSt.push]

theorem step_makecell_pushes (si fb : Nat) (hsi : si < 65536) (hfb : fb < 256)
    (stk : List Obj) (frames2 : List Frame) (gl2 st2 cv2 : List Obj) (nv2 : List String)
    (frame : Frame) (hget : frames2[fb]? = some frame) (hloc : si < frame.localsLen) :
    step (mcState si fb stk frames2 gl2 st2 cv2 nv2)
      = .next { mcState si fb stk frames2 gl2 st2 cv2 nv2 with
                ip := 4, stack := Obj.cell (frame.localsBase + si) :: stk } := by
  rw [step_mc_red, fetch2Val_lo si hsi, Nat.mod_eq_of_lt hfb]
  unfold execMakeCell
  have hlt : fb < frames2.length := by
    rcases Nat.lt_or_ge fb frames2.length with h | h
    · exact h
    · rw [List.getElem?_eq_none h] at hget
      cases hget
  rw [if_neg (by simp only [VMSt.framesIndex, mcState]; omega)]
  simp [mcState, hget, hloc, VMSt.push]

/-! ## Claim theorems -/

/-- Claim C1.  The VM-level mechanism the claim describes is real: a
`Call` of a named `CompiledFunction` with exactly `n = params.len()`
arguments writes the callee into local slot `n` of the new frame (here
`n = 1`: slot 1 holds the function, slot 0 the argument), so an
identifier naming the function resolves to it (the last conjunct shows
the compiled body of `fact`, whose recursive reference is the
`LoadFast 1` before the `Call 1`).  But the claimed
consequence fails on this code: compiling and running `fact(5)` does
not leave `Int(120)` on the stack — the very first `LoadConst`
misdecodes, because `MakeInstruction` emits one code word per u16
operand while the VM's `fetch2` consumes two, so the constant index
read is `0 + 256·StoreGlobal` and the Go slice access panics. -/
theorem c1_named_call_slot_and_fact_run :
    progPanicMsg (runProgram [] factProg 100 1000) = some "index out of range"
    ∧ (stepNextState c1CallState).map (fun s => s.store.get? 1)
      = some (some (Obj.compiledFunction factMeta []))
    ∧ (stepNextState c1CallState).map (fun s => s.store.get? 0) = some (some (Obj.int 5))
    ∧ fnInstructionsOf (constantAt (compiledMainScope [] factProg 100) 0)
      = some [opLoadFast, 0, opLoadConst, 0, opCompareOp, opLessThanOrEqual,
              opPopJumpForwardIfFalse, 6, opLoadConst, 1, opReturnValue, 1,
              opLoadFast, 0, opLoadFast, 1, opLoadFast, 0, opLoadConst, 2,
              opBinaryOp, opSubtract, opCall, 1, opBinaryOp, opMultiply,
              opReturnValue, 1] :=
  ⟨rfl, rfl, rfl, rfl⟩

/-- Claim C2.  The cell mechanism is real at the instruction level:
`MakeCell` pushes a cell aliasing the declaring frame's locals slot
(store address 1 here), `LoadFree` through a closure's captured cell
reads that same slot, and `StoreFree` writes it, so closure and frame
share one slot.  The compile side is also real: the last two
conjuncts show `mk`'s body emitting `MakeCell 1 0; LoadClosure 1 1`
over its local `n` (slot 1), and `inc`'s body reading and writing free
variable 0 (`LoadFree 0 … StoreFree 0 … LoadFree 0`).  But the claimed
end-to-end consequence fails: the counter program of scenario 3 panics
on its first `LoadConst` (the operand-width mismatch of C4) instead of
leaving `Int(3)`. -/
theorem c2_cell_sharing_and_counter_run :
    progPanicMsg (runProgram [] counterProg 100 1000) = some "index out of range"
    ∧ (stepNextState c2MakeCellState).map (fun s => s.stack) = some [Obj.cell 1]
    ∧ (stepNextState c2LoadFreeState).map (fun s => s.stack) = some [Obj.int 7]
    ∧ (stepNextState c2StoreFreeState).map (fun s => s.store)
      = some [Obj.nil, Obj.int 8, Obj.goZero]
    ∧ fnInstructionsOf (constantAt (compiledMainScope [] counterProg 100) 0)
      = some [opLoadConst, 0, opStoreFast, 1, opMakeCell, 1, 0, opLoadClosure, 1, 1,
              opStoreFast, 2, opLoadFast, 2, opReturnValue, 1]
    ∧ fnInstructionsOf (fnConstantOf (constantAt (compiledMainScope [] counterProg 100) 0) 1)
      = some [opLoadFree, 0, opLoadConst, 0, opBinaryOp, opAdd, opStoreFree, 0,
              opLoadFree, 0, opReturnValue, 1] :=
  ⟨rfl, rfl, rfl, rfl, rfl, rfl⟩

/-- Claim C3.  The claim says runtime failures are returned as error
values from `run()` and never terminate the host process; but
`runBinaryOp` divides with no zero check (Go runtime panic), and both
`runBinaryOp` and `runCompareOp` use unchecked `.(*object.Int)` type
assertions (Go panic on a mismatched type).  The dispatch loop does
not recover, so the panic propagates out of `VM.Run` — modelled as the
`goPanic` outcome, distinct from a returned error. -/
theorem c3_runtime_failure_panics :
    runBinaryOp opDivide (Obj.int 1) (Obj.int 0) = .goPanic "integer divide by zero"
    ∧ runBinaryOp opAdd (Obj.str "a") (Obj.int 1) = .goPanic "interface conversion"
    ∧ runCompareOp opLessThan (Obj.str "a") (Obj.int 0) = .goPanic "interface conversion"
    ∧ step c3State = .goPanic "integer divide by zero"
    ∧ runVM 1 c3State = .goPanic "integer divide by zero" :=
  ⟨rfl, rfl, rfl, rfl, rfl⟩

/-- Claim C4.  The number of code words the VM consumes does NOT equal
the number `MakeInstruction` appends: for `LoadConst 7` the compiler
appends 2 words (opcode + one word per operand), while the operand
table gives the operand width 2, so the VM's `fetch2` consumes two
words — decoding `[LoadConst, 7, True]` reads the operand as
`7 | True<<8 = 3079` (not 7), leaves `ip` on 3 (not on the next
opcode boundary 2), and the constant access panics. -/
theorem c4_operand_width_mismatch :
    MakeInstruction opLoadConst [7] = [opLoadConst, 7]
    ∧ (operandWidthsSpec opLoadConst).sum = 2
    ∧ fetch2Val 7 opTrue = 3079
    ∧ step c4State = .goPanic "index out of range" :=
  ⟨rfl, rfl, rfl, rfl⟩

/-- Claim C5.  For a simple loop compiled inside a function body the
backpatched jump operands are wrong: `compileSimpleFor` records the
loop start as `len(c.Instructions())` — the MAIN scope's buffer — so
with 4 words already in main, the loop `for { continue }` inside `g`
gets continue operand `0 - 4 = 65532` and back-jump operand
`2 - 4 = 65534` (uint16 wrap-around), where the identical top-level
loop gets 0 and 2.  At runtime even the top-level break misses its
Nop target because `fetch2` swallows the following opcode word
(`for { break }; true` ends with an empty stack instead of `true`
on top). -/
theorem c5_loop_backpatch_in_function :
    fnInstructionsOf (constantAt (compiledMainScope [] loopInFuncProg 100) 1)
      = some [opJumpBackward, 65532, opJumpBackward, 65534, opNop, opReturnValue, 1]
    ∧ scopeInstrs (compiledMainScope [] loopTopProg 100)
      = some [opJumpBackward, 0, opJumpBackward, 2, opNop]
    ∧ progStack (runProgram [] breakTopProg 100 1000) = some [] :=
  ⟨rfl, rfl, rfl⟩

/-- Claim C6.  Neither if-branch transfers control as claimed, because
the compiler emits 2-word `PopJumpForwardIfFalse` instructions while
the VM consumes 3 words and compensates with `delta - 3`:
`if false { 1 }; true` should resume at the trailing `true` (stack
`[true]`) but ends with an empty stack, and `if true { 1 }` should run
the consequence (stack `[Int 1]`) but skips its first word and also
ends empty (the skipped `LoadConst` leaves its operand word 0 to be
executed as an opcode — `Nop` under this model's numbering; under any
numbering the consequence's own opcode is never executed).  The third
conjunct shows the compiled form of the first program: delta 4 patched
at the jump's operand word. -/
theorem c6_if_jump_targets :
    progStack (runProgram [] ifFalseProg 100 1000) = some []
    ∧ progStack (runProgram [] ifTrueProg 100 1000) = some []
    ∧ scopeInstrs (compiledMainScope [] ifFalseProg 100)
      = some [opFalse, opPopJumpForwardIfFalse, 4, opLoadConst, 0, opTrue] :=
  ⟨rfl, rfl, rfl⟩

/-- Claim C7.  `Call` of a `CompiledFunction` returns the frame
overflow error exactly when `frames_index + 1` reaches the 1024-frame
limit, and in that case the frame array is untouched and `run()`
surfaces the error; `ReturnValue` returns the frame underflow error
exactly when `frames_index = 0`, modifying nothing, and `run()`
surfaces it. -/
theorem c7_frame_limits
    (argc : Nat) (hargc : argc < 255)
    (args rest s2stack : List Obj) (hlen : args.length = argc)
    (meta : FnMeta) (consts cv gl st cv2 gl2 st2 : List Obj) (nv nv2 : List String)
    (frames frames2 : List Frame) :
    (stepErrMsg (step (callState argc (args ++ Obj.compiledFunction meta consts :: rest) frames gl st cv nv)) = some "frame overflow"
      ↔ (callState argc (args ++ Obj.compiledFunction meta consts :: rest) frames gl st cv nv).framesIndex + 1 ≥ 1024)
    ∧ ((callState argc (args ++ Obj.compiledFunction meta consts :: rest) frames gl st cv nv).framesIndex + 1 ≥ 1024 →
        (stepErrState (step (callState argc (args ++ Obj.compiledFunction meta consts :: rest) frames gl st cv nv))).map (fun s => s.frames) = some frames
        ∧ runErrMsg (runVM 1 (callState argc (args ++ Obj.compiledFunction meta consts :: rest) frames gl st cv nv)) = some "frame overflow")
    ∧ (stepErrMsg (step (retState s2stack frames2 gl2 st2 cv2 nv2)) = some "frame underflow"
      ↔ (retState s2stack frames2 gl2 st2 cv2 nv2).framesIndex = 0)
    ∧ ((retState s2stack frames2 gl2 st2 cv2 nv2).framesIndex = 0 →
        (stepErrState (step (retState s2stack frames2 gl2 st2 cv2 nv2))).map (fun s => (s.frames, s.stack, s.globals, s.store)) = some (frames2, s2stack, gl2, st2)
        ∧ runErrMsg (runVM 1 (retState s2stack frames2 gl2 st2 cv2 nv2)) = some "frame underflow") := by
  have hmod : argc % 256 = argc := Nat.mod_eq_of_lt (by omega)
  have hcallred := step_call_red argc (args ++ Obj.compiledFunction meta consts :: rest) frames gl st cv nv
  rw [hmod] at hcallred
  have hretred := step_ret_red s2stack frames2 gl2 st2 cv2 nv2
  refine ⟨⟨?_, ?_⟩, ?_, ⟨?_, ?_⟩, ?_⟩
  · intro hmsg
    by_contra hlt
    have hlt2 : ({ callState argc (args ++ Obj.compiledFunction meta consts :: rest) frames gl st cv nv with ip := 2 } : VMSt).frames.length - 1 + 1 < 1024 := by
      simp only [callState, VMSt.framesIndex] at hlt ⊢
      omega
    obtain ⟨s2, hs2⟩ := execCall_not_overflow argc hargc args rest hlen meta consts _ rfl hlt2
    rw [hcallred, hs2] at hmsg
    simp [stepErrMsg] at hmsg
  · intro hge
    have hge2 : ({ callState argc (args ++ Obj.compiledFunction meta consts :: rest) frames gl st cv nv with ip := 2 } : VMSt).frames.length - 1 + 1 ≥ 1024 := by
      simp only [callState, VMSt.framesIndex] at hge ⊢
      omega
    rw [hcallred, execCall_overflow argc args rest hlen meta consts _ rfl hge2]
    rfl
  · intro hge
    have hge2 : ({ callState argc (args ++ Obj.compiledFunction meta consts :: rest) frames gl st cv nv with ip := 2 } : VMSt).frames.length - 1 + 1 ≥ 1024 := by
      simp only [callState, VMSt.framesIndex] at hge ⊢
      omega
    have hstep := hcallred.trans (execCall_overflow argc args rest hlen meta consts _ rfl hge2)
    constructor
    · rw [hstep]
      rfl
    · show runErrMsg (runVM 1 _) = _
      unfold runVM
      rw [if_pos (by simp [callState])]
      rw [hstep]
      rfl
  · intro hmsg
    by_contra hne
    obtain ⟨s2, hs2⟩ := execReturn_ok ({ retState s2stack frames2 gl2 st2 cv2 nv2 with ip := 1 }) (by
      simp only [retState, VMSt.framesIndex] at hne ⊢
      omega)
    rw [hretred, hs2] at hmsg
    simp [stepErrMsg] at hmsg
  · intro h0
    have h02 : ({ retState s2stack frames2 gl2 st2 cv2 nv2 with ip := 1 } : VMSt).frames.length - 1 = 0 := by
      simp only [retState, VMSt.framesIndex] at h0 ⊢
      omega
    rw [hretred, execReturn_underflow _ h02]
    rfl
  · intro h0
    have h02 : ({ retState s2stack frames2 gl2 st2 cv2 nv2 with ip := 1 } : VMSt).frames.length - 1 = 0 := by
      simp only [retState, VMSt.framesIndex] at h0 ⊢
      omega
    have hstep := hretred.trans (execReturn_underflow _ h02)
    constructor
    · rw [hstep]
      rfl
    · show runErrMsg (runVM 1 _) = _
      unfold runVM
      rw [if_pos (by simp [retState])]
      rw [hstep]
      rfl

/-- Witness for C7: with the frame array full (1024 frames) a `Call`
of a compiled function errors with frame overflow, and with only the
base frame a `ReturnValue` errors with frame underflow. -/
theorem c7_frame_limits_witness :
    stepErrMsg (step (callState 1 ([Obj.int 5] ++ Obj.compiledFunction factMeta [] :: [])
        (List.replicate 1024 dummyFrame) [] [] [] [])) = some "frame overflow"
    ∧ stepErrMsg (step (retState [] [dummyFrame] [] [] [] [])) = some "frame underflow" := by
  have h := c7_frame_limits 1 (by decide) [Obj.int 5] [] [] rfl factMeta [] [] [] [] [] [] []
    [] [] (List.replicate 1024 dummyFrame) [dummyFrame]
  refine ⟨h.1.mpr ?_, h.2.2.1.mpr ?_⟩
  · simp only [callState, VMSt.framesIndex, List.length_replicate]
    omega
  · simp only [retState, VMSt.framesIndex, List.length_singleton]

/-- Claim C8.  For a compiled function with free variables the emitted
code is exactly one `MakeCell(sym_idx, depth-1)` per free-variable
resolution followed by `LoadClosure(const_idx, free_count)` with
`free_count` the number of resolutions; each `MakeCell` step pushes
exactly one Cell; a `LoadClosure` step pops exactly `free_count`
values and builds a closure whose `free_vars` length equals the
`free_count` operand; and `LoadClosure` returns the "expected cell"
error when a popped value is not a Cell.  The last conjunct grounds
the emission at an actual `compileFunc` output: `mk`'s body in the
scenario-3 program carries exactly one `MakeCell` immediately before
its `LoadClosure` with `free_count` operand 1 — the number of free
resolutions of `inc`. -/
theorem c8_closure_free_count
    (cur : Scope) (srest : List Scope) (fn : Obj) (fs : List Resolution) (hfs : fs ≠ [])
    (addrs : List Nat) (orest : List Obj) (ci : Nat) (hci : ci < 65536)
    (hk : addrs.length < 65536) (meta : FnMeta) (consts cs : List Obj)
    (frames : List Frame) (gl st : List Obj) (nv : List String)
    (hconst : cs[ci]? = some (Obj.compiledFunction meta consts))
    (si fb : Nat) (hsi : si < 65536) (hfb : fb < 256)
    (stk : List Obj) (frames2 : List Frame) (gl2 st2 cv2 : List Obj) (nv2 : List String)
    (frame : Frame) (hget : frames2[fb]? = some frame) (hloc : si < frame.localsLen) :
    (currentInstructions (emitFunction (⟨cur :: srest⟩ : Compiler) fn fs)
      = cur.instructions
        ++ fs.flatMap (fun r => [opMakeCell, r.symbol.index % 65536, (r.depth - 1) % 65536])
        ++ [opLoadClosure, cur.constants.length % 65536, fs.length % 65536])
    ∧ (step (lcState ci addrs.length cs (addrs.map Obj.cell ++ orest) frames gl st nv)
      = .next { lcState ci addrs.length cs (addrs.map Obj.cell ++ orest) frames gl st nv with
                ip := 5, stack := Obj.compiledFunction { meta with freeVars := addrs } consts :: orest })
    ∧ (step (mcState si fb stk frames2 gl2 st2 cv2 nv2)
      = .next { mcState si fb stk frames2 gl2 st2 cv2 nv2 with
                ip := 4, stack := Obj.cell (frame.localsBase + si) :: stk })
    ∧ stepErrMsg (step lcBadState) = some "expected cell"
    ∧ fnInstructionsOf (constantAt (compiledMainScope [] counterProg 100) 0)
      = some [opLoadConst, 0, opStoreFast, 1, opMakeCell, 1, 0, opLoadClosure, 1, 1,
              opStoreFast, 2, opLoadFast, 2, opReturnValue, 1] :=
  ⟨emitFunction_free cur srest fn fs hfs,
   step_loadclosure_cells addrs orest ci hci hk meta consts cs frames gl st nv hconst,
   step_makecell_pushes si fb hsi hfb stk frames2 gl2 st2 cv2 nv2 frame hget hloc,
   rfl, rfl⟩

/-- Witness for C8 at a concrete instance: one free resolution (local
1, depth 1) yields `MakeCell 1 0; LoadClosure 0 1`; a `LoadClosure`
with one cell on the stack builds a closure with one captured cell;
a `MakeCell 1 0` pushes the cell for store slot 1. -/
theorem c8_closure_free_count_witness :
    (currentInstructions (emitFunction (⟨c8wCur :: []⟩ : Compiler) Obj.nil [c8wRes])
      = c8wCur.instructions
        ++ [c8wRes].flatMap (fun r => [opMakeCell, r.symbol.index % 65536, (r.depth - 1) % 65536])
        ++ [opLoadClosure, c8wCur.constants.length % 65536, [c8wRes].length % 65536])
    ∧ (step (lcState 0 [5].length [Obj.compiledFunction c2Meta []] ([5].map Obj.cell ++ []) [] [] [] [])
      = .next { lcState 0 [5].length [Obj.compiledFunction c2Meta []] ([5].map Obj.cell ++ []) [] [] [] [] with
                ip := 5, stack := Obj.compiledFunction { c2Meta with freeVars := [5] } [] :: [] })
    ∧ (step (mcState 1 0 [] [c8wFrame] [] [] [] [])
      = .next { mcState 1 0 [] [c8wFrame] [] [] [] [] with
                ip := 4, stack := Obj.cell (c8wFrame.localsBase + 1) :: [] })
    ∧ stepErrMsg (step lcBadState) = some "expected cell"
    ∧ fnInstructionsOf (constantAt (compiledMainScope [] counterProg 100) 0)
      = some [opLoadConst, 0, opStoreFast, 1, opMakeCell, 1, 0, opLoadClosure, 1, 1,
              opStoreFast, 2, opLoadFast, 2, opReturnValue, 1] :=
  c8_closure_free_count c8wCur [] Obj.nil [c8wRes] (by simp) [5] [] 0 (by decide) (by decide)
    c2Meta [] [Obj.compiledFunction c2Meta []] [] [] [] [] rfl 1 0 (by decide) (by decide)
    [] [c8wFrame] [] [] [] [] c8wFrame rfl (by decide)

/-- Claim C9.  `constant(v)` does append `v` to the current scope's
constant pool, but the index it returns is `uint16(len - 1)` with NO
overflow error (the source carries a `TODO: error if > 65535`): on a
scope already holding 65,536 constants, appending returns the silently
truncated index 0. -/
theorem c9_constant_append_truncates (sc : Scope) (v : Obj) :
    (scopeConstant sc v).1.constants = sc.constants ++ [v]
    ∧ (scopeConstant sc v).2 = sc.constants.length % 65536
    ∧ (sc.constants.length = 65536 → (scopeConstant sc v).2 = 0) := by
  refine ⟨rfl, ?_, ?_⟩
  · simp [scopeConstant]
  · intro h
    simp [scopeConstant, h]

/-- Witness for C9: appending the 65,537th constant returns index 0
with no error. -/
theorem c9_constant_append_truncates_witness :
    (scopeConstant bigConstScope (Obj.int 42)).2 = 0 :=
  (c9_constant_append_truncates bigConstScope (Obj.int 42)).2.2
    (by simp only [bigConstScope, List.length_replicate])

/-- Counterexample for C10: the claim says executing a compiled
assignment whose target is a Builtin leaves extra values on the
operand stack; but for `len += 1` the VM aborts on the very first
instruction — the emitted `LoadBuiltin` has no case in the dispatch
switch — with an "unknown opcode" error and an empty stack. -/
theorem c10_builtin_assign_counterexample :
    progErrMsg (runProgram builtinLen assignBuiltinCompound 100 1000) = some "unknown opcode"
    ∧ (progErrState (runProgram builtinLen assignBuiltinCompound 100 1000)).map (fun s => s.stack)
      = some [] :=
  ⟨rfl, rfl⟩

/-- Claim C10 as amended.  Assignment to a Builtin-resolving name
compiles without error and its final store step emits `LoadBuiltin`
instead of any store opcode (both for simple and compound operators).
Because the VM dispatch switch has no `LoadBuiltin` case, WHENEVER
execution reaches a `LoadBuiltin` instruction it aborts with an
"unknown opcode" error that advances only the instruction pointer —
stack, globals, frames and store are untouched by that instruction —
and the error is surfaced by the run loop.  Execution of the compiled
assignment can abort even earlier through the C4 operand-width
mismatch: `len = 5` panics with "index out of range" at its
misdecoded `LoadConst` before the `LoadBuiltin` is dispatched (and
produces no "unknown opcode" error); when the RHS avoids two-word
operands, the run itself aborts with "unknown opcode" leaving the
builtin binding and all globals unchanged — `len += 1` on its first
instruction with an empty stack, `len = true` with the already-pushed
RHS value still on the operand stack. -/
theorem c10_builtin_assign_amended (fuel : Nat) (name : String) (sym : Sym) (rhs : AST)
    (c cr crs : Compiler) (cur : Scope) (rest : List Scope)
    (hb : lookupSym c name = some (SymScope.scopeBuiltin, sym, c))
    (hrhs : compile fuel rhs (emitLoad c SymScope.scopeBuiltin sym) = .ok cr)
    (hcr : cr.scopes = cur :: rest)
    (hrhs0 : compile fuel rhs c = .ok crs)
    (stk : List Obj) (frames : List Frame) (gl st cv : List Obj)
    (nvv : List String) (irest : List Nat) :
    compileAssign (compile fuel) name "+=" rhs c
      = .ok (emitStore (emitCompound cr "+=") SymScope.scopeBuiltin sym)
    ∧ compileAssign (compile fuel) name "=" rhs c = .ok (emitStore crs SymScope.scopeBuiltin sym)
    ∧ currentInstructions (emitStore (emitCompound cr "+=") SymScope.scopeBuiltin sym)
      = cur.instructions ++ [opBinaryOp, opAdd, opLoadBuiltin, sym.index % 65536]
    ∧ step (lbState stk frames gl st cv nvv irest)
      = .errR "unknown opcode" { lbState stk frames gl st cv nvv irest with ip := 1 }
    ∧ runErrMsg (runVM 1 (lbState stk frames gl st cv nvv irest)) = some "unknown opcode"
    ∧ progErrMsg (runProgram builtinLen assignBuiltinCompound 100 1000) = some "unknown opcode"
    ∧ (progErrState (runProgram builtinLen assignBuiltinCompound 100 1000)).map (fun s => s.globals)
      = some [Obj.builtin "len"]
    ∧ progErrMsg (runProgram builtinLen assignBuiltinSimple 100 1000) = some "unknown opcode"
    ∧ (progErrState (runProgram builtinLen assignBuiltinSimple 100 1000)).map (fun s => s.stack)
      = some [Obj.boolean true]
    ∧ (progErrState (runProgram builtinLen assignBuiltinSimple 100 1000)).map (fun s => s.globals)
      = some [Obj.builtin "len"]
    ∧ progPanicMsg (runProgram builtinLen assignBuiltinSimpleInt 100 1000)
      = some "index out of range"
    ∧ progErrMsg (runProgram builtinLen assignBuiltinSimpleInt 100 1000) = none := by
  refine ⟨?_, ?_, ?_, rfl, ?_, rfl, rfl, rfl, rfl, rfl, rfl, rfl⟩
  · simp [compileAssign, hb, hrhs]
  · simp [compileAssign, hb, hrhs0]
  · simp [emitStore, emitCompound, emitC, emitP, MakeInstruction, currentInstructions,
      currentScopeOf, hcr, opAdd, opBinaryOp, opLoadBuiltin]
  · show runErrMsg (runVM 1 _) = _
    unfold runVM
    rw [if_pos (by simp [lbState])]
    rfl

/-- Witness for C10: `len += true` and `len = true` against the
builtin `len`, with the compiled results written out, and a concrete
`LoadBuiltin` dispatch erroring with "unknown opcode" while changing
nothing but the instruction pointer. -/
theorem c10_builtin_assign_amended_witness :
    compileAssign (compile 1) "len" "+=" (.boolLit true) c10c
      = .ok (emitStore (emitCompound c10cr "+=") SymScope.scopeBuiltin c10sym)
    ∧ compileAssign (compile 1) "len" "=" (.boolLit true) c10c
      = .ok (emitStore c10crs SymScope.scopeBuiltin c10sym)
    ∧ currentInstructions (emitStore (emitCompound c10cr "+=") SymScope.scopeBuiltin c10sym)
      = c10cur.instructions ++ [opBinaryOp, opAdd, opLoadBuiltin, c10sym.index % 65536]
    ∧ step (lbState [Obj.boolean true] [dummyFrame] [Obj.builtin "len"] [] [] [] [0])
      = .errR "unknown opcode"
          { lbState [Obj.boolean true] [dummyFrame] [Obj.builtin "len"] [] [] [] [0] with ip := 1 }
    ∧ runErrMsg (runVM 1 (lbState [Obj.boolean true] [dummyFrame] [Obj.builtin "len"] [] [] [] [0]))
      = some "unknown opcode" := by
  have h := c10_builtin_assign_amended 1 "len" c10sym (.boolLit true) c10c c10cr c10crs
    c10cur [] rfl rfl rfl rfl [Obj.boolean true] [dummyFrame] [Obj.builtin "len"] [] [] [] [0]
  exact ⟨h.1, h.2.1, h.2.2.1, h.2.2.2.1, h.2.2.2.2.1⟩

end Risor
